import Mathlib

/-!
Verification of the nightscout-tray glucose prediction core.

This file gives a shallow embedding, in Lean 4, of the prediction package of
the repository (the parameter analyzer, the physiological predictor, the
oref-style ensemble engine and the normalisation helpers of the sequence
model), and proves or refutes the behavioural claims made about it.

Modelling conventions:
* Go `float64` values are modelled as exact rationals (`ℚ`).  Division by
  zero is the Lean convention `x / 0 = 0`; all claims proved here concern
  inputs on which the Go code performs no division by zero.
* `time.Time` values are modelled as integers (Unix milliseconds), matching
  the `Date` fields of the source records.  Durations in minutes are
  rationals.  `time.Now()` is modelled as an explicit `now : ℤ` parameter.
* The transcendental library functions (`math.Exp`, `math.Sqrt`) and the
  local-calendar functions (`Time.Hour`, `Time.Minute`, day formatting) have
  no exact rational counterpart; they are modelled as abstract fields of an
  ambient `Env` record that is passed to every definition that uses them.
  No theorem below depends on their values.
* Go slices are Lean lists; Go maps keyed by day strings are association
  lists keyed by the abstract day key, and their randomised iteration order
  is modelled by an explicit order parameter.
-/

namespace NightscoutTray

/-- Ambient environment: abstract models of library functions used by the
Go code that have no exact rational counterpart. -/
structure Env where
  exp : ℚ → ℚ
  sqrt : ℚ → ℚ
  hourOf : ℤ → Fin 24
  minuteOf : ℤ → ℕ
  dayKey : ℤ → ℤ

/-- A concrete environment used for witnesses; the theorems never depend on
the values of these functions. -/
def env0 : Env :=
  { exp := fun _ => 0
    sqrt := fun _ => 0
    hourOf := fun _ => ⟨0, by omega⟩
    minuteOf := fun _ => 0
    dayKey := fun t => t / 86400000 }

/-- Go `math.Round`: round half away from zero. -/
def goRound (x : ℚ) : ℚ := if 0 ≤ x then (⌊x + 1/2⌋ : ℤ) else (-⌊-x + 1/2⌋ : ℤ)

/-- Minutes elapsed from time `a` to time `b` (both Unix ms), i.e. Go
`b.Sub(a).Minutes()`. -/
def minutesFrom (a b : ℤ) : ℚ := ((b - a : ℤ) : ℚ) / 60000

namespace models

/-- internal/models/prediction.go: `TimeOfDayPeriod`. -/
inductive TimeOfDayPeriod
  | morning
  | midday
  | evening
  | night
deriving DecidableEq

/-- internal/models: `GlucoseEntry` (fields used by the prediction core). -/
structure GlucoseEntry where
  sgv : ℤ
  date : ℤ
deriving DecidableEq

/-- `GlucoseEntry.Time()` as Unix ms. -/
def GlucoseEntry.time (g : GlucoseEntry) : ℤ := g.date

/-- internal/models: `Treatment` (fields used by the prediction core). -/
structure Treatment where
  id : ℕ
  eventType : String
  date : ℤ
  insulin : ℚ
  carbs : ℚ
deriving DecidableEq

/-- `Treatment.Time()`.  The source falls back to parsing `created_at` when
`Date <= 0`; the records considered here always carry `Date > 0`, so the
fallback branch is not modelled. -/
def Treatment.time (t : Treatment) : ℤ := t.date

/-- `Treatment.HasInsulin()`. -/
def Treatment.hasInsulin (t : Treatment) : Prop := 0 < t.insulin

instance (t : Treatment) : Decidable t.hasInsulin := by
  unfold Treatment.hasInsulin; infer_instance

/-- `Treatment.HasCarbs()`. -/
def Treatment.hasCarbs (t : Treatment) : Prop := 0 < t.carbs

instance (t : Treatment) : Decidable t.hasCarbs := by
  unfold Treatment.hasCarbs; infer_instance

/-- `Treatment.IsBolus()`. -/
def Treatment.isBolus (t : Treatment) : Prop :=
  t.eventType ∈ ["Bolus", "Snack Bolus", "Meal Bolus", "Correction Bolus",
    "Combo Bolus", "Bolus Wizard"] ∨
  (t.hasInsulin ∧ t.eventType ≠ "Temp Basal")

instance (t : Treatment) : Decidable t.isBolus := by
  unfold Treatment.isBolus; infer_instance

/-- `GetTimeOfDayPeriod` (the hour is taken through the abstract calendar). -/
def getTimeOfDayPeriod (env : Env) (tms : ℤ) : TimeOfDayPeriod :=
  let hour := (env.hourOf tms).val
  if 6 ≤ hour ∧ hour < 11 then .morning
  else if 11 ≤ hour ∧ hour < 17 then .midday
  else if 17 ≤ hour ∧ hour < 22 then .evening
  else .night

/-- internal/models/prediction.go: `DiabetesParameters`.  The by-time-of-day
maps are total functions on the four periods; `NewDiabetesParameters` leaves
them empty, which reads as 0 for every key, matching Go map semantics. -/
structure DiabetesParameters where
  isf : ℚ
  isfByTimeOfDay : TimeOfDayPeriod → ℚ
  icr : ℚ
  icrByTimeOfDay : TimeOfDayPeriod → ℚ
  dia : ℚ
  carbAbsorptionRate : ℚ
  basalRateByTimeOfDay : TimeOfDayPeriod → ℚ
  totalDailyInsulin : ℚ
  basalInsulin : ℚ
  bolusInsulin : ℚ
  totalDailyCarbs : ℚ
  averageGlucose : ℚ
  glucoseStdDev : ℚ
  timeInRange : ℚ
  timeBelowRange : ℚ
  timeAboveRange : ℚ
  gmi : ℚ
  coefficientOfVariation : ℚ
  isfConfidence : ℚ
  icrConfidence : ℚ
  diaConfidence : ℚ
  dataDays : ℤ
  entriesAnalyzed : ℕ
  treatmentsAnalyzed : ℕ
  calculatedAt : ℤ

/-- `NewDiabetesParameters`. -/
def newDiabetesParameters : DiabetesParameters :=
  { isf := 50
    isfByTimeOfDay := fun _ => 0
    icr := 10
    icrByTimeOfDay := fun _ => 0
    dia := 4
    carbAbsorptionRate := 30
    basalRateByTimeOfDay := fun _ => 0
    totalDailyInsulin := 0
    basalInsulin := 0
    bolusInsulin := 0
    totalDailyCarbs := 0
    averageGlucose := 0
    glucoseStdDev := 0
    timeInRange := 0
    timeBelowRange := 0
    timeAboveRange := 0
    gmi := 0
    coefficientOfVariation := 0
    isfConfidence := 0
    icrConfidence := 0
    diaConfidence := 0
    dataDays := 0
    entriesAnalyzed := 0
    treatmentsAnalyzed := 0
    calculatedAt := 0 }

/-- `ToMmol`: mg/dL to mmol/L. -/
def toMmol (mgdl : ℚ) : ℚ := mgdl / (180182 / 10000)

/-- internal/models/prediction.go: `PredictedPoint`. -/
structure PredictedPoint where
  time : ℤ
  value : ℚ
  valueMmol : ℚ
  confidence : ℚ
  insulinEffect : ℚ
  carbEffect : ℚ
  trendEffect : ℚ
deriving DecidableEq

end models

namespace ML

/-! Embedding of the sequence-model normalisation helpers
(src/unnamed/part_015). -/

/-- Constant `glucoseMin` (minimum glucose for normalisation). -/
def glucoseMin : ℚ := 20

/-- Constant `glucoseMax` (maximum glucose for normalisation). -/
def glucoseMax : ℚ := 420

/-- `normalizeGlucose`: normalises glucose to the [-1, 1] range. -/
def normalizeGlucose (glucose : ℚ) : ℚ :=
  (2 * glucose - glucoseMin - glucoseMax) / (glucoseMax - glucoseMin)

/-- `denormalizeGlucose`: converts a normalised value back to mg/dL. -/
def denormalizeGlucose (normalized : ℚ) : ℚ :=
  (normalized * (glucoseMax - glucoseMin) + glucoseMin + glucoseMax) / 2

end ML

instance : Inhabited models.PredictedPoint :=
  ⟨{ time := 0, value := 0, valueMmol := 0, confidence := 0, insulinEffect := 0,
     carbEffect := 0, trendEffect := 0 }⟩

namespace Phys

/-! Embedding of the physiological predictor (src/unnamed/part_014). -/

/-- The `Predictor` receiver: it carries only the parameters. -/
structure Predictor where
  params : models.DiabetesParameters

/-- part_014 `insulinActivityRemaining`: fraction of insulin still active
after the given minutes (rising phase to the 75-minute peak, then linear
decay to the end of the DIA window). -/
def insulinActivityRemaining (p : Predictor) (minutes : ℚ) : ℚ :=
  if minutes ≤ 0 then 1
  else
    let diaMinutes := p.params.dia * 60
    if diaMinutes ≤ minutes then 0
    else
      let peakTime : ℚ := 75
      if minutes < peakTime then 1 - (minutes / peakTime) * (1/10)
      else
        let remainingTime := diaMinutes - minutes
        let totalDecayTime := diaMinutes - peakTime
        (9/10) * (remainingTime / totalDecayTime)

/-- part_014 `carbsAbsorbed`: grams absorbed after the given minutes
(logistic curve centred at half the absorption time). -/
def carbsAbsorbed (env : Env) (totalCarbs minutes absorptionTime : ℚ) : ℚ :=
  if minutes ≤ 0 then 0
  else if absorptionTime ≤ minutes then totalCarbs
  else
    let progress := minutes / absorptionTime
    totalCarbs / (1 + env.exp (-10 * (progress - 1/2)))

/-- part_014 `calculateInsulinEffect`: glucose-lowering effect of boluses
between `startTime` and `predTime`, using the time-of-day ISF. -/
def calculateInsulinEffect (env : Env) (p : Predictor)
    (treatments : List models.Treatment) (startTime predTime : ℤ) : ℚ :=
  let diaMinutes := p.params.dia * 60
  let period := models.getTimeOfDayPeriod env predTime
  let isf0 := p.params.isfByTimeOfDay period
  let isf := if isf0 = 0 then p.params.isf else isf0
  treatments.foldl (fun acc t =>
    if t.hasInsulin ∧ t.isBolus then
      if t.time ≤ startTime then
        let m := minutesFrom t.time predTime
        if m ≤ diaMinutes ∧ 0 ≤ m then
          let activityAtStart := insulinActivityRemaining p (minutesFrom t.time startTime)
          let activityAtPred := insulinActivityRemaining p m
          let activityUsed := activityAtStart - activityAtPred
          if 0 < activityUsed then acc - t.insulin * activityUsed * isf else acc
        else acc
      else acc
    else acc) 0

/-- part_014 `calculateCarbEffect`: glucose-raising effect of carbs absorbed
between `startTime` and `predTime` (3 h absorption window, CSF = ISF/ICR). -/
def calculateCarbEffect (env : Env) (p : Predictor)
    (treatments : List models.Treatment) (startTime predTime : ℤ) : ℚ :=
  let period := models.getTimeOfDayPeriod env predTime
  let icr0 := p.params.icrByTimeOfDay period
  let icr := if icr0 = 0 then p.params.icr else icr0
  let isf0 := p.params.isfByTimeOfDay period
  let isf := if isf0 = 0 then p.params.isf else isf0
  let csf := isf / icr
  let absorptionTime : ℚ := 180
  treatments.foldl (fun acc t =>
    if t.hasCarbs then
      let m := minutesFrom t.time predTime
      let mStart := minutesFrom t.time startTime
      if m ≤ absorptionTime ∧ 0 ≤ m then
        let byStart := carbsAbsorbed env t.carbs mStart absorptionTime
        let byPred := carbsAbsorbed env t.carbs m absorptionTime
        let inPeriod := byPred - byStart
        if 0 < inPeriod then acc + inPeriod * csf else acc
      else acc
    else acc) 0

/-- part_014 `calculateTrendEffect`: trend contribution, full for 30 minutes
and exponentially decaying afterwards. -/
def calculateTrendEffect (env : Env) (trendPer5Min minutesOut : ℚ) : ℚ :=
  if minutesOut ≤ 30 then trendPer5Min * (minutesOut / 5)
  else
    let effect30 := trendPer5Min * 6
    let decayFactor := env.exp (-(1/50) * (minutesOut - 30))
    let additionalMinutes := minutesOut - 30
    effect30 + trendPer5Min * (additionalMinutes / 5) * decayFactor

/-- part_014 `applyConstraints`: clamp a predicted value to [20, 500]. -/
def applyConstraints (value : ℚ) (_minutesOut : ℚ) : ℚ :=
  let v1 := if value < 20 then 20 else value
  if 500 < v1 then 500 else v1

/-- part_014 `calculateConfidence`. -/
def calculateConfidence (env : Env) (p : Predictor) (minutesOut : ℚ)
    (highConfidenceMode : Bool) (dataPoints : ℕ) : ℚ :=
  let baseConfidence : ℚ := if highConfidenceMode then 90 else 70
  let timeDecay := env.exp (-(1/200) * minutesOut)
  let dataFactor := min 1 ((dataPoints : ℚ) / 50)
  let paramFactor := (p.params.isfConfidence + p.params.icrConfidence +
    p.params.diaConfidence) / 300
  let confidence := baseConfidence * timeDecay * (1/2 + 1/2 * dataFactor) *
    (1/2 + 1/2 * paramFactor)
  max 10 (min 100 confidence)

/-- Loop body of part_014 `predictRange`: one point per step, each based on
the previous predicted value and clamped by `applyConstraints`. -/
def predictRangeAux (env : Env) (p : Predictor) (currentTrend : ℚ)
    (numEntries : ℕ) (treatments : List models.Treatment)
    (startTime interval : ℤ) (highConfidence : Bool) :
    ℕ → ℕ → ℚ → List models.PredictedPoint
  | 0, _, _ => []
  | stepsLeft + 1, i, prevGlucose =>
    let predTime := startTime + (i : ℤ) * interval
    let minutesOut := (i : ℚ) * minutesFrom 0 interval
    let insulinEffect := calculateInsulinEffect env p treatments startTime predTime
    let carbEffect := calculateCarbEffect env p treatments startTime predTime
    let trendEffect := calculateTrendEffect env currentTrend minutesOut
    let baseGlucose := prevGlucose
    let predictedValue := applyConstraints
      (baseGlucose + insulinEffect + carbEffect + trendEffect) minutesOut
    let confidence := calculateConfidence env p minutesOut highConfidence numEntries
    { time := predTime
      value := goRound (predictedValue * 10) / 10
      valueMmol := models.toMmol predictedValue
      confidence := confidence
      insulinEffect := insulinEffect
      carbEffect := carbEffect
      trendEffect := trendEffect } ::
    predictRangeAux env p currentTrend numEntries treatments startTime interval
      highConfidence stepsLeft (i + 1) predictedValue

/-- part_014 `predictRange`: the short-horizon sequence is
`predictRange ... (2 h) (5 min) true`, the long-horizon sequence
`predictRange ... (6 h) (15 min) false` (durations in ms). -/
def predictRange (env : Env) (p : Predictor) (currentGlucose currentTrend : ℚ)
    (recentEntries : List models.GlucoseEntry)
    (treatments : List models.Treatment) (startTime duration interval : ℤ)
    (highConfidence : Bool) : List models.PredictedPoint :=
  let steps := (duration / interval).toNat
  predictRangeAux env p currentTrend recentEntries.length treatments startTime
    interval highConfidence steps 1 currentGlucose

/-- part_014 `calculateIOB`: decayed sum of bolus insulin inside the DIA
window, rounded to two decimals. -/
def calculateIOB (p : Predictor) (treatments : List models.Treatment)
    (now : ℤ) : ℚ :=
  let diaMinutes := p.params.dia * 60
  let total := treatments.foldl (fun acc t =>
    if t.hasInsulin ∧ t.isBolus then
      if t.time ≤ now then
        let minutesAgo := minutesFrom t.time now
        if minutesAgo ≤ diaMinutes then
          acc + t.insulin * insulinActivityRemaining p minutesAgo
        else acc
      else acc
    else acc) 0
  goRound (total * 100) / 100

end Phys

/-- Sum of the insulin units of all insulin-carrying treatments of a list
(`HasInsulin` means a strictly positive dose). -/
def totalInsulin (treatments : List models.Treatment) : ℚ :=
  (treatments.map (fun t => if t.hasInsulin then t.insulin else 0)).sum

namespace Oref

/-! Embedding of the oref1-inspired ensemble forecast engine
(src/unnamed/part_013, second file). -/

/-- part_013 `OrefConfig`. -/
structure OrefConfig where
  insulinPeakMinutes : ℚ
  diaMinutes : ℚ
  carbAbsorptionDefault : ℚ
  min5mCarbImpact : ℚ
  autosensMax : ℚ
  autosensMin : ℚ
  dawnPhenomenonFactor : ℚ
  nightSensitivityFactor : ℚ
  predictionHorizonMinutes : ℤ
  useSMB : Bool

/-- part_013 `DefaultOrefConfig`. -/
def defaultOrefConfig : OrefConfig :=
  { insulinPeakMinutes := 75
    diaMinutes := 300
    carbAbsorptionDefault := 180
    min5mCarbImpact := 8
    autosensMax := 6/5
    autosensMin := 7/10
    dawnPhenomenonFactor := 3/5
    nightSensitivityFactor := 7/5
    predictionHorizonMinutes := 360
    useSMB := true }

/-- part_013 `DeviationRecord`. -/
structure DeviationRecord where
  time : ℤ
  deviation : ℚ
  expectedDelta : ℚ
  actualDelta : ℚ

/-- part_013 `MealPattern`. -/
structure MealPattern where
  timeOfDay : ℚ
  carbAmount : ℚ
  insulinGiven : ℚ
  preMealBG : ℚ
  peakBGRise : ℚ
  timeToReturn : ℚ
  actualICR : ℚ
  glucoseCurve : List ℚ
  count : ℕ
  lastSeen : ℤ

/-- part_013 `CorrectionPattern`. -/
structure CorrectionPattern where
  timeOfDay : ℚ
  startingBG : ℚ
  insulinGiven : ℚ
  bgDrop : ℚ
  timeToNadir : ℚ
  actualISF : ℚ
  count : ℕ
  lastSeen : ℤ

/-- part_013 `CircadianProfile`: 24-slot sensitivity and ICR factor arrays. -/
structure CircadianProfile where
  hourlySensitivity : Fin 24 → ℚ
  hourlyICR : Fin 24 → ℚ
  hourlyCounts : Fin 24 → ℕ

/-- part_013 `PatternDatabase`. -/
structure PatternDatabase where
  mealPatterns : List MealPattern
  correctionPatterns : List CorrectionPattern
  circadianProfile : CircadianProfile

/-- part_013 `OrefEngine`. -/
structure OrefEngine where
  params : models.DiabetesParameters
  sensitivityRatio : ℚ
  deviationHistory : List DeviationRecord
  patterns : PatternDatabase
  config : OrefConfig

/-- The 24 hourly sensitivity factors that `NewOrefEngine` installs
(night and dawn-phenomenon prior). -/
def initialHourlySensitivity : List ℚ :=
  [7/5, 7/5, 6/5, 4/5, 7/10, 3/5,
   3/5, 7/10, 4/5, 9/10, 1, 1,
   1, 1, 1, 1, 1, 1,
   1, 1, 11/10, 6/5, 13/10, 7/5]

/-- The 24 hourly ICR factors that `NewOrefEngine` installs. -/
def initialHourlyICR : List ℚ :=
  [1, 1, 1, 1, 1, 1,
   7/10, 3/4, 4/5, 9/10, 1, 1,
   1, 1, 1, 1, 1, 1,
   11/10, 23/20, 11/10, 1, 1, 1]

/-- part_013 `NewOrefEngine` (a `nil` parameter argument is replaced by the
defaults, as in the source). -/
def newOrefEngine (params? : Option models.DiabetesParameters) : OrefEngine :=
  { params := params?.getD models.newDiabetesParameters
    sensitivityRatio := 1
    deviationHistory := []
    patterns :=
      { mealPatterns := []
        correctionPatterns := []
        circadianProfile :=
          { hourlySensitivity := fun h => initialHourlySensitivity.getD h.val 0
            hourlyICR := fun h => initialHourlyICR.getD h.val 0
            hourlyCounts := fun _ => 0 } }
    config := defaultOrefConfig }

/-- part_013 `PredictionPoint` (the engine-internal one). -/
structure PredictionPoint where
  time : ℤ
  value : ℚ
  confidence : ℚ
  insulinEffect : ℚ
  carbEffect : ℚ
  momentumEffect : ℚ
  sensAdjustment : ℚ
deriving DecidableEq

/-- part_013 `insulinActivityRemaining`: exponential activity curve with a
configurable peak; the result is clamped into [0, 1]. -/
def insulinActivityRemaining (env : Env) (e : OrefEngine) (minutesSince : ℚ) : ℚ :=
  if minutesSince ≤ 0 then 1
  else if e.config.diaMinutes ≤ minutesSince then 0
  else
    let peak := e.config.insulinPeakMinutes
    let dia := e.config.diaMinutes
    let tau0 := peak * (1 - peak / dia)
    let tau := if tau0 ≤ 0 then peak * (3/4) else tau0
    let a := 2 * tau / dia
    let S := 1 / (1 - a + (1 + a) * env.exp (-dia / tau))
    let remaining := 1 - S * (1 - (1 + minutesSince / tau) * env.exp (-minutesSince / tau))
    max 0 (min 1 remaining)

/-- part_013 `carbsAbsorbed`: nonlinear absorption with a minimum
5-minute carb impact floor, capped at the total. -/
def carbsAbsorbed (env : Env) (e : OrefEngine) (totalCarbs minutesSince : ℚ) : ℚ :=
  if minutesSince ≤ 0 then 0
  else
    let absorptionTime :=
      if 60 < totalCarbs then e.config.carbAbsorptionDefault * (13/10)
      else if totalCarbs < 20 then e.config.carbAbsorptionDefault * (7/10)
      else e.config.carbAbsorptionDefault
    if absorptionTime ≤ minutesSince then totalCarbs
    else
      let progress := minutesSince / absorptionTime
      let k : ℚ := 8
      let c : ℚ := 7/20
      let absorbed := totalCarbs / (1 + env.exp (-k * (progress - c)))
      let minAbsorbed := (minutesSince / 5) *
        (e.config.min5mCarbImpact / (e.params.isf / e.params.icr))
      min (max absorbed minAbsorbed) totalCarbs

/-- part_013 `calculateIOB` (engine version: every insulin treatment inside
the DIA window counts), rounded to two decimals. -/
def calculateIOB (env : Env) (e : OrefEngine)
    (treatments : List models.Treatment) (now : ℤ) : ℚ :=
  let total := treatments.foldl (fun iob t =>
    if t.hasInsulin then
      let minutesSince := minutesFrom t.time now
      if minutesSince < 0 ∨ e.config.diaMinutes < minutesSince then iob
      else iob + t.insulin * insulinActivityRemaining env e minutesSince
    else iob) 0
  goRound (total * 100) / 100

/-- part_013 `calculateCOB`, rounded to one decimal. -/
def calculateCOB (env : Env) (e : OrefEngine)
    (treatments : List models.Treatment) (now : ℤ) : ℚ :=
  let total := treatments.foldl (fun cob t =>
    if t.hasCarbs then
      let minutesSince := minutesFrom t.time now
      if minutesSince < 0 then cob
      else
        let remaining := t.carbs - carbsAbsorbed env e t.carbs minutesSince
        if 0 < remaining then cob + remaining else cob
    else cob) 0
  goRound (total * 10) / 10

/-- Loop of part_013 `calculateTrend`: at most three newest 5-minute deltas,
stopping at the first entry older than 20 minutes. -/
def trendLoop (now : ℤ) : List models.GlucoseEntry → ℕ → ℚ × ℚ → ℚ × ℚ
  | a :: b :: rest, fuel + 1, st =>
    if 20 < minutesFrom a.time now then st
    else
      let gap := minutesFrom b.time a.time
      if 4 ≤ gap ∧ gap ≤ 6 then
        trendLoop now (b :: rest) fuel (st.1 + ((a.sgv - b.sgv : ℤ) : ℚ), st.2 + 1)
      else trendLoop now (b :: rest) fuel st
  | _, _, st => st

/-- part_013 `calculateTrend` (the source reads the wall clock; it is the
`now` parameter here, and every caller passes the forecast start time). -/
def calculateTrend (entries : List models.GlucoseEntry) (now : ℤ) : ℚ :=
  if entries.length < 2 then 0
  else
    let sorted := List.insertionSort (fun a b => b.date ≤ a.date) entries
    let st := trendLoop now sorted 3 (0, 0)
    if 0 < st.2 then st.1 / st.2 else 0

/-- part_013 `calculateMomentum`. -/
def calculateMomentum (entries : List models.GlucoseEntry) (now : ℤ) : ℚ :=
  calculateTrend entries now

/-- part_013 `calculateExpectedDelta`: expected glucose change between two
times from insulin decay and carb absorption. -/
def calculateExpectedDelta (env : Env) (e : OrefEngine) (fr upto : ℤ)
    (treatments : List models.Treatment) : ℚ :=
  let st := treatments.foldl (fun (acc : ℚ × ℚ) t =>
    let insulinEffect :=
      if t.hasInsulin then
        let activityFrom := insulinActivityRemaining env e (minutesFrom t.time fr)
        let activityTo := insulinActivityRemaining env e (minutesFrom t.time upto)
        let activityUsed := activityFrom - activityTo
        if 0 < activityUsed then acc.1 - t.insulin * activityUsed * e.params.isf
        else acc.1
      else acc.1
    let carbEffect :=
      if t.hasCarbs then
        let absorbedFrom := carbsAbsorbed env e t.carbs (minutesFrom t.time fr)
        let absorbedTo := carbsAbsorbed env e t.carbs (minutesFrom t.time upto)
        let absorbedInWindow := absorbedTo - absorbedFrom
        if 0 < absorbedInWindow then
          acc.2 + absorbedInWindow * (e.params.isf / e.params.icr)
        else acc.2
      else acc.2
    (insulinEffect, carbEffect)) (0, 0)
  st.1 + st.2

/-- part_013 `calculateExpectedTrend`: expected 5-minute change. -/
def calculateExpectedTrend (env : Env) (e : OrefEngine)
    (treatments : List models.Treatment) (now : ℤ) : ℚ :=
  calculateExpectedDelta env e (now - 300000) now treatments / 5

/-- part_013 `findBGAt`: glucose value closest to a time, or 0 when nothing
lies within 10 minutes.  The huge initial distance models the
`1<<62 - 1` initialisation of the source. -/
def findBGAt (entries : List models.GlucoseEntry) (targetTime : ℤ) : ℚ :=
  let r := entries.foldl (fun (st : ℤ × ℤ) entry =>
    let diff0 := entry.time - targetTime
    let diff := if diff0 < 0 then -diff0 else diff0
    if diff < st.1 then (diff, entry.sgv) else st) (4611686018427387903, 0)
  if r.1 ≤ 600000 then (r.2 : ℚ) else 0

/-- One iteration of the part_013 `calculateAutosens` loop: the recorded
deviation ratio for a consecutive reading pair, or `none` when one of the
`continue` conditions fires (outside the trailing 24 h window, spacing not
4 to 6 minutes, or no significant expected delta).  The recorded ratio is
`(actualDelta + 100) / (expectedDelta + 100)`. -/
def autosensPairRatio (env : Env) (e : OrefEngine)
    (treatments : List models.Treatment) (now : ℤ)
    (pc : models.GlucoseEntry × models.GlucoseEntry) : Option ℚ :=
  if pc.2.time < now - 86400000 then none
  else
    let gap := minutesFrom pc.1.time pc.2.time
    if gap < 4 ∨ 6 < gap then none
    else
      let actualDelta := ((pc.2.sgv - pc.1.sgv : ℤ) : ℚ)
      let expectedDelta := calculateExpectedDelta env e pc.1.time pc.2.time treatments
      if 5 < |expectedDelta| then
        some ((actualDelta + 100) / (expectedDelta + 100))
      else none

/-- Go slice-append under an optional value: append when present. -/
def appendIfSome {β : Type} (acc : List β) (o : Option β) : List β :=
  match o with
  | some y => acc ++ [y]
  | none => acc

/-- The slice-append loop of part_013 `calculateAutosens` over the
consecutive reading pairs. -/
def autosensDeviationsLoop (env : Env) (e : OrefEngine)
    (entries : List models.GlucoseEntry)
    (treatments : List models.Treatment) (now : ℤ) : List ℚ :=
  (entries.zip entries.tail).foldl (fun devs pc =>
    appendIfSome devs (autosensPairRatio env e treatments now pc)) []

/-- The same qualifying deviation ratios, written declaratively as a
filterMap over consecutive reading pairs. -/
def autosensDeviations (env : Env) (e : OrefEngine)
    (entries : List models.GlucoseEntry)
    (treatments : List models.Treatment) (now : ℤ) : List ℚ :=
  (entries.zip entries.tail).filterMap (autosensPairRatio env e treatments now)

/-- Modelled from the spec: the spec describes the autosens input as the
"per-interval ratios actual-delta / expected-delta"; this is that list, for
comparison with what the code records. -/
def claimedAutosensRatios (env : Env) (e : OrefEngine)
    (entries : List models.GlucoseEntry)
    (treatments : List models.Treatment) (now : ℤ) : List ℚ :=
  (entries.zip entries.tail).filterMap (fun pc =>
    if pc.2.time < now - 86400000 then none
    else
      let gap := minutesFrom pc.1.time pc.2.time
      if gap < 4 ∨ 6 < gap then none
      else
        let actualDelta := ((pc.2.sgv - pc.1.sgv : ℤ) : ℚ)
        let expectedDelta := calculateExpectedDelta env e pc.1.time pc.2.time treatments
        if 5 < |expectedDelta| then some (actualDelta / expectedDelta)
        else none)

/-- A Go `append`-under-condition loop collects exactly the filterMap of
its per-element function. -/
theorem foldl_optAppend_eq_filterMap {α β : Type} (f : α → Option β) :
    ∀ (l : List α) (acc : List β),
      l.foldl (fun acc x => appendIfSome acc (f x)) acc =
        acc ++ l.filterMap f := by
  intro l
  induction l with
  | nil => intro acc; simp
  | cons a rest ih =>
    intro acc
    rw [List.foldl_cons, List.filterMap_cons]
    cases hf : f a with
    | none => exact ih acc
    | some y =>
      have h := ih (acc ++ [y])
      rw [List.append_assoc] at h
      exact h

/-- The autosens loop equals its declarative filterMap form. -/
theorem autosensDeviationsLoop_eq (env : Env) (e : OrefEngine)
    (entries : List models.GlucoseEntry)
    (treatments : List models.Treatment) (now : ℤ) :
    autosensDeviationsLoop env e entries treatments now =
      autosensDeviations env e entries treatments now := by
  unfold autosensDeviationsLoop autosensDeviations
  have h := foldl_optAppend_eq_filterMap (autosensPairRatio env e treatments now)
    (entries.zip entries.tail) []
  simp only [List.nil_append] at h
  exact h

/-- part_013 `calculateAutosens`: with at least ten qualifying deviation
ratios, the sensitivity ratio becomes the upper-median ratio clamped to the
configured band; otherwise it is left unchanged. -/
def calculateAutosens (env : Env) (e : OrefEngine)
    (entries : List models.GlucoseEntry)
    (treatments : List models.Treatment) (now : ℤ) : OrefEngine :=
  let deviations := autosensDeviationsLoop env e entries treatments now
  if 10 ≤ deviations.length then
    let sorted := List.insertionSort (fun a b => a ≤ b) deviations
    let medianRatio := sorted.getD (deviations.length / 2) 0
    { e with sensitivityRatio :=
        (max e.config.autosensMin (min e.config.autosensMax medianRatio)) }
  else e

end Oref

/-- analyzer.go `median` (package level, shared with the engine): the middle
element of the ascending sort, averaging the two middle elements for even
lengths, and 0 for the empty list. -/
def median (values : List ℚ) : ℚ :=
  if values = [] then 0
  else
    let sorted := List.insertionSort (fun a b => a ≤ b) values
    let n := values.length
    if n % 2 = 0 then (sorted.getD (n / 2 - 1) 0 + sorted.getD (n / 2) 0) / 2
    else sorted.getD (n / 2) 0

namespace Oref

/-- Hour-indexed ISF samples that part_013 `learnCircadianPatterns` collects
from correction-like treatments (insulin, no carbs, at least half a unit,
elevated start, measured drop, ISF accepted in [10, 200]). -/
def hourlyISFSamples (env : Env) (entries : List models.GlucoseEntry)
    (treatments : List models.Treatment) : Fin 24 → List ℚ :=
  treatments.foldl (fun m t =>
    if ¬ t.hasInsulin ∨ t.hasCarbs then m
    else if t.insulin < 1/2 then m
    else
      let hour := env.hourOf t.time
      let bgBefore := findBGAt entries t.time
      let bgAfter := findBGAt entries (t.time + 7200000)
      if 150 < bgBefore ∧ 0 < bgAfter ∧ bgAfter < bgBefore then
        let isf := (bgBefore - bgAfter) / t.insulin
        if 10 ≤ isf ∧ isf ≤ 200 then
          fun h => if h = hour then m h ++ [isf] else m h
        else m
      else m) (fun _ => [])

/-- Hour-indexed ICR samples that part_013 `learnCircadianPatterns` collects
from meal treatments (stable outcome, ICR accepted in [3, 40]). -/
def hourlyICRSamples (env : Env) (entries : List models.GlucoseEntry)
    (treatments : List models.Treatment) : Fin 24 → List ℚ :=
  treatments.foldl (fun m t =>
    if ¬ t.hasInsulin ∨ ¬ t.hasCarbs then m
    else
      let hour := env.hourOf t.time
      let bgBefore := findBGAt entries t.time
      let bgAfter := findBGAt entries (t.time + 10800000)
      if 0 < bgBefore ∧ 0 < bgAfter then
        if |bgAfter - bgBefore| < 50 then
          let icr := t.carbs / t.insulin
          if 3 ≤ icr ∧ icr ≤ 40 then
            fun h => if h = hour then m h ++ [icr] else m h
          else m
        else m
      else m) (fun _ => [])

/-- part_013 `learnCircadianPatterns`: with at least ten samples overall,
hours with at least two samples get their hourly factor replaced by the
hour median relative to the global median (the map iteration of the source
touches each hour key independently, so it is rendered per hour). -/
def learnCircadianPatterns (env : Env) (e : OrefEngine)
    (entries : List models.GlucoseEntry)
    (treatments : List models.Treatment) : OrefEngine :=
  let hourlyISF := hourlyISFSamples env entries treatments
  let hourlyICR := hourlyICRSamples env entries treatments
  let allISF := ((List.finRange 24).map hourlyISF).flatten
  let allICR := ((List.finRange 24).map hourlyICR).flatten
  let profile := e.patterns.circadianProfile
  let profile1 :=
    if 10 ≤ allISF.length then
      let medianISF := median allISF
      { profile with
          hourlySensitivity := fun h =>
            if 2 ≤ (hourlyISF h).length then median (hourlyISF h) / medianISF
            else profile.hourlySensitivity h
          hourlyCounts := fun h =>
            if 2 ≤ (hourlyISF h).length then (hourlyISF h).length
            else profile.hourlyCounts h }
    else profile
  let profile2 :=
    if 10 ≤ allICR.length then
      let medianICR := median allICR
      { profile1 with
          hourlyICR := fun h =>
            if 2 ≤ (hourlyICR h).length then medianICR / median (hourlyICR h)
            else profile1.hourlyICR h }
    else profile1
  { e with patterns := { e.patterns with circadianProfile := profile2 } }

/-- part_013 `addMealPattern` merge step (exponential moving average with
alpha 0.2). -/
def mergeMealPattern (p pattern : MealPattern) : MealPattern :=
  { p with
      peakBGRise := (4/5) * p.peakBGRise + (1/5) * pattern.peakBGRise
      actualICR :=
        (if 0 < pattern.actualICR then (4/5) * p.actualICR + (1/5) * pattern.actualICR
         else p.actualICR)
      count := p.count + 1
      lastSeen := pattern.lastSeen }

/-- Search part of part_013 `addMealPattern`: merge into the first pattern
with a close time of day and carb amount. -/
def addMealPatternAux : List MealPattern → MealPattern → Option (List MealPattern)
  | [], _ => none
  | p :: rest, pattern =>
    if |p.timeOfDay - pattern.timeOfDay| < 1/10 ∧
        |p.carbAmount - pattern.carbAmount| < 20 then
      some (mergeMealPattern p pattern :: rest)
    else (addMealPatternAux rest pattern).map (fun l => p :: l)

/-- part_013 `addMealPattern`: merge or append while fewer than 100 patterns
are stored. -/
def addMealPattern (l : List MealPattern) (pattern : MealPattern) :
    List MealPattern :=
  match addMealPatternAux l pattern with
  | some l2 => l2
  | none => if l.length < 100 then l ++ [pattern] else l

/-- part_013 `learnMealPatterns`: one candidate pattern per carb treatment
with a known pre-meal glucose and at least twelve curve samples. -/
def learnMealPatterns (env : Env) (e : OrefEngine)
    (entries : List models.GlucoseEntry)
    (treatments : List models.Treatment) : OrefEngine :=
  treatments.foldl (fun eng t =>
    if ¬ t.hasCarbs then eng
    else
      let timeOfDay := (((env.hourOf t.time).val * 60 + env.minuteOf t.time : ℕ) : ℚ) / 1440
      let preMealBG := findBGAt entries t.time
      if preMealBG ≤ 0 then eng
      else
        let built := (List.range 36).foldl (fun (st : List ℚ × ℚ) i =>
          let bg := findBGAt entries (t.time + (i : ℤ) * 300000)
          if 0 < bg then
            let rise := bg - preMealBG
            (st.1 ++ [bg], if st.2 < rise then rise else st.2)
          else st) ([], 0)
        if built.1.length < 12 then eng
        else
          let actualICR := if t.hasInsulin ∧ 0 < t.insulin then t.carbs / t.insulin else 0
          let pattern : MealPattern :=
            { timeOfDay := timeOfDay, carbAmount := t.carbs,
              insulinGiven := t.insulin, preMealBG := preMealBG,
              peakBGRise := built.2, timeToReturn := 0, actualICR := actualICR,
              glucoseCurve := built.1, count := 1, lastSeen := t.time }
          { eng with patterns :=
              { eng.patterns with
                  mealPatterns := addMealPattern eng.patterns.mealPatterns pattern } })
    e

/-- part_013 `addCorrectionPattern` merge step. -/
def mergeCorrectionPattern (p pattern : CorrectionPattern) : CorrectionPattern :=
  { p with
      actualISF := (4/5) * p.actualISF + (1/5) * pattern.actualISF
      timeToNadir := (4/5) * p.timeToNadir + (1/5) * pattern.timeToNadir
      count := p.count + 1
      lastSeen := pattern.lastSeen }

/-- Search part of part_013 `addCorrectionPattern`. -/
def addCorrectionPatternAux :
    List CorrectionPattern → CorrectionPattern → Option (List CorrectionPattern)
  | [], _ => none
  | p :: rest, pattern =>
    if |p.timeOfDay - pattern.timeOfDay| < 1/10 ∧
        |p.startingBG - pattern.startingBG| < 30 then
      some (mergeCorrectionPattern p pattern :: rest)
    else (addCorrectionPatternAux rest pattern).map (fun l => p :: l)

/-- part_013 `addCorrectionPattern`. -/
def addCorrectionPattern (l : List CorrectionPattern)
    (pattern : CorrectionPattern) : List CorrectionPattern :=
  match addCorrectionPatternAux l pattern with
  | some l2 => l2
  | none => if l.length < 100 then l ++ [pattern] else l

/-- part_013 `learnCorrectionPatterns`: one candidate pattern per
insulin-only treatment of at least half a unit given above 150 mg/dL with a
drop of at least 20 mg/dL to the four-hour nadir. -/
def learnCorrectionPatterns (env : Env) (e : OrefEngine)
    (entries : List models.GlucoseEntry)
    (treatments : List models.Treatment) : OrefEngine :=
  treatments.foldl (fun eng t =>
    if ¬ t.hasInsulin ∨ t.hasCarbs then eng
    else if t.insulin < 1/2 then eng
    else
      let timeOfDay := (((env.hourOf t.time).val * 60 + env.minuteOf t.time : ℕ) : ℚ) / 1440
      let startingBG := findBGAt entries t.time
      if startingBG < 150 then eng
      else
        let nadir := (List.range 48).foldl (fun (st : ℚ × ℚ) i =>
          let checkTime := t.time + ((i : ℤ) + 1) * 300000
          let bg := findBGAt entries checkTime
          if 0 < bg ∧ bg < st.1 then (bg, ((i : ℚ) + 1) * 5) else st)
          (startingBG, 0)
        let bgDrop := startingBG - nadir.1
        if bgDrop < 20 then eng
        else
          let pattern : CorrectionPattern :=
            { timeOfDay := timeOfDay, startingBG := startingBG,
              insulinGiven := t.insulin, bgDrop := bgDrop,
              timeToNadir := nadir.2, actualISF := bgDrop / t.insulin,
              count := 1, lastSeen := t.time }
          { eng with patterns :=
              { eng.patterns with
                  correctionPatterns :=
                    addCorrectionPattern eng.patterns.correctionPatterns pattern } })
    e

/-- part_013 `LearnFromHistory`: a no-op below the minimum history volume,
otherwise circadian, meal, correction and autosens learning on the
chronologically sorted entries. -/
def learnFromHistory (env : Env) (e : OrefEngine)
    (entries : List models.GlucoseEntry)
    (treatments : List models.Treatment) (now : ℤ) : OrefEngine :=
  if entries.length < 100 ∨ treatments.length < 10 then e
  else
    let sortedEntries := List.insertionSort (fun a b => a.date ≤ b.date) entries
    let e1 := learnCircadianPatterns env e sortedEntries treatments
    let e2 := learnMealPatterns env e1 sortedEntries treatments
    let e3 := learnCorrectionPatterns env e2 sortedEntries treatments
    calculateAutosens env e3 sortedEntries treatments now

/-- part_013 `predictIOBOnly`: insulin-decay plus decaying momentum, clamped
to [20, 500]. -/
def predictIOBOnly (env : Env) (e : OrefEngine) (currentBG momentum : ℚ)
    (treatments : List models.Treatment) (startTime predTime : ℤ) :
    PredictionPoint :=
  let minutesOut := minutesFrom startTime predTime
  let hour := env.hourOf predTime
  let sensitivityFactor := e.patterns.circadianProfile.hourlySensitivity hour
  let adjustedISF := e.params.isf * sensitivityFactor * e.sensitivityRatio
  let insulinEffect := treatments.foldl (fun acc t =>
    if t.hasInsulin then
      let activityAtStart := insulinActivityRemaining env e (minutesFrom t.time startTime)
      let activityAtPred := insulinActivityRemaining env e (minutesFrom t.time predTime)
      let activityUsed := activityAtStart - activityAtPred
      if 0 < activityUsed then acc - t.insulin * activityUsed * adjustedISF else acc
    else acc) 0
  let momentumDecay := env.exp (-(3/100) * minutesOut)
  let momentumEffect := momentum * (minutesOut / 5) * momentumDecay
  let predicted := max 20 (min 500 (currentBG + insulinEffect + momentumEffect))
  let confidence0 := 90 - minutesOut * (3/20)
  let confidence := if confidence0 < 20 then 20 else confidence0
  { time := predTime
    value := predicted
    confidence := confidence
    insulinEffect := insulinEffect
    carbEffect := 0
    momentumEffect := momentumEffect
    sensAdjustment := sensitivityFactor }

/-- part_013 `predictWithCOB`: the IOB-only point plus the circadian-ICR
carb effect, re-clamped to [20, 500]. -/
def predictWithCOB (env : Env) (e : OrefEngine) (currentBG momentum : ℚ)
    (treatments : List models.Treatment) (startTime predTime : ℤ) :
    PredictionPoint :=
  let pred := predictIOBOnly env e currentBG momentum treatments startTime predTime
  let hour := env.hourOf predTime
  let icrFactor := e.patterns.circadianProfile.hourlyICR hour
  let adjustedICR := e.params.icr / icrFactor
  let csf := (e.params.isf * e.sensitivityRatio) / adjustedICR
  let carbEffect := treatments.foldl (fun acc t =>
    if t.hasCarbs then
      let absorbedAtStart := carbsAbsorbed env e t.carbs (minutesFrom t.time startTime)
      let absorbedAtPred := carbsAbsorbed env e t.carbs (minutesFrom t.time predTime)
      let absorbedInWindow := absorbedAtPred - absorbedAtStart
      if 0 < absorbedInWindow then acc + absorbedInWindow * csf else acc
    else acc) 0
  { pred with
      value := (max 20 (min 500 (pred.value + carbEffect)))
      carbEffect := carbEffect }

/-- part_013 `predictZeroTemp`: identical to the COB prediction with reduced
confidence. -/
def predictZeroTemp (env : Env) (e : OrefEngine) (currentBG momentum : ℚ)
    (treatments : List models.Treatment) (startTime predTime : ℤ) :
    PredictionPoint :=
  let pred := predictWithCOB env e currentBG momentum treatments startTime predTime
  { pred with confidence := pred.confidence * (9/10) }

/-- part_013 `predictUAM`: the COB point plus an unannounced-meal term when
the observed trend exceeds the expected one, re-clamped to [20, 500]. -/
def predictUAM (env : Env) (e : OrefEngine) (currentBG : ℚ)
    (entries : List models.GlucoseEntry) (treatments : List models.Treatment)
    (startTime predTime : ℤ) : PredictionPoint :=
  let minutesOut := minutesFrom startTime predTime
  let recentTrend := calculateTrend entries startTime
  let expectedTrend := calculateExpectedTrend env e treatments startTime
  let deviation := recentTrend - expectedTrend
  let uamEffect :=
    if 1/2 < deviation then
      let peakMinutes : ℚ := 45
      if minutesOut < peakMinutes then
        deviation * (minutesOut / 5) * (minutesOut / peakMinutes)
      else
        deviation * (peakMinutes / 5) * env.exp (-(1/50) * (minutesOut - peakMinutes))
    else 0
  let pred := predictWithCOB env e currentBG recentTrend treatments startTime predTime
  { pred with value := (max 20 (min 500 (pred.value + uamEffect))) }

/-- part_013 `predictML`: the COB point adjusted by matching learned meal
and correction patterns, clamped to [20, 500] at the end. -/
def predictML (env : Env) (e : OrefEngine) (currentBG : ℚ)
    (entries : List models.GlucoseEntry) (treatments : List models.Treatment)
    (startTime predTime : ℤ) : PredictionPoint :=
  let momentum := calculateMomentum entries startTime
  let pred0 := predictWithCOB env e currentBG momentum treatments startTime predTime
  let minutesOut := minutesFrom startTime predTime
  let timeOfDay := (((env.hourOf startTime).val * 60 + env.minuteOf startTime : ℕ) : ℚ) / 1440
  let pred1 := treatments.foldl (fun pr t =>
    if t.hasCarbs then
      let mealAge := minutesFrom t.time startTime
      if mealAge < 0 ∨ 180 < mealAge then pr
      else
        e.patterns.mealPatterns.foldl (fun pr2 pattern =>
          if |pattern.timeOfDay - timeOfDay| < 1/10 ∧
              |pattern.carbAmount - t.carbs| < 20 ∧ 2 ≤ pattern.count then
            let predictedIdx := (⌊minutesOut / 5⌋).toNat
            if predictedIdx < pattern.glucoseCurve.length then
              let patternBG := pattern.glucoseCurve.getD predictedIdx 0
              let patternRise := patternBG - pattern.preMealBG
              let expectedRise := pr2.value - currentBG
              { pr2 with value := pr2.value + (patternRise - expectedRise) * (3/10) }
            else pr2
          else pr2) pr
    else pr) pred0
  let pred2 :=
    if 180 < currentBG then
      e.patterns.correctionPatterns.foldl (fun pr pattern =>
        if |pattern.startingBG - currentBG| < 30 ∧
            |pattern.timeOfDay - timeOfDay| < 1/10 ∧ 2 ≤ pattern.count then
          let ie := pr.insulinEffect * (pattern.actualISF / e.params.isf)
          { pr with
              insulinEffect := ie
              value := currentBG + ie + pr.carbEffect + pr.momentumEffect }
        else pr) pred1
    else pred1
  { pred2 with
      value := (max 20 (min 500 pred2.value))
      confidence := pred2.confidence * (19/20) }

/-- part_013 `selectConservativePrediction`: highest candidate at short
horizons, a fixed-weight blend (iob 0.1, cob 0.3, zt 0.15, uam 0.15,
ml 0.3) at medium horizons, the COB candidate at long horizons. -/
def selectConservativePrediction (iob cob zt uam ml : PredictionPoint)
    (minutesOut : ℚ) : PredictionPoint :=
  if minutesOut ≤ 30 then
    [cob, zt, uam, ml].foldl
      (fun highest p => if highest.value < p.value then p else highest) iob
  else if minutesOut ≤ 120 then
    let weights : List ℚ := [1/10, 3/10, 3/20, 3/20, 3/10]
    let preds := [iob, cob, zt, uam, ml]
    let init : PredictionPoint :=
      { time := iob.time, value := 0, confidence := 0, insulinEffect := 0,
        carbEffect := 0, momentumEffect := 0, sensAdjustment := 0 }
    let st := (preds.zip weights).foldl (fun (acc : PredictionPoint × ℚ) pw =>
      ({ acc.1 with
          value := acc.1.value + pw.1.value * pw.2
          insulinEffect := acc.1.insulinEffect + pw.1.insulinEffect * pw.2
          carbEffect := acc.1.carbEffect + pw.1.carbEffect * pw.2
          momentumEffect := acc.1.momentumEffect + pw.1.momentumEffect * pw.2
          confidence := acc.1.confidence + pw.1.confidence * pw.2 },
        acc.2 + pw.2)) (init, 0)
    { st.1 with
        value := st.1.value / st.2
        insulinEffect := st.1.insulinEffect / st.2
        carbEffect := st.1.carbEffect / st.2
        momentumEffect := st.1.momentumEffect / st.2
        confidence := st.1.confidence / st.2 }
  else cob

/-- part_013 `PredictionCurves`. -/
structure PredictionCurves where
  iobPrediction : List PredictionPoint
  cobPrediction : List PredictionPoint
  ztPrediction : List PredictionPoint
  uamPrediction : List PredictionPoint
  mlPrediction : List PredictionPoint
  final : List PredictionPoint

/-- Loop body of part_013 `generatePredictionCurves` (`idx` is the
zero-based loop counter; the source counts `step` from 1). -/
def curvesStep (env : Env) (e : OrefEngine) (currentGlucose : ℚ)
    (entries : List models.GlucoseEntry) (treatments : List models.Treatment)
    (now : ℤ) (momentum : ℚ) (curves : PredictionCurves) (idx : ℕ) :
    PredictionCurves :=
  let step : ℕ := idx + 1
  let predTime := now + (step : ℤ) * 300000
  let minutesOut : ℚ := (step : ℚ) * 5
  let iobPred := predictIOBOnly env e currentGlucose momentum treatments now predTime
  let cobPred := predictWithCOB env e currentGlucose momentum treatments now predTime
  let ztPred := predictZeroTemp env e currentGlucose momentum treatments now predTime
  let uamPred := predictUAM env e currentGlucose entries treatments now predTime
  let mlPred := predictML env e currentGlucose entries treatments now predTime
  let fin := selectConservativePrediction iobPred cobPred ztPred uamPred mlPred minutesOut
  { curves with
      iobPrediction := curves.iobPrediction ++ [iobPred]
      cobPrediction := curves.cobPrediction ++ [cobPred]
      ztPrediction := curves.ztPrediction ++ [ztPred]
      uamPrediction := curves.uamPrediction ++ [uamPred]
      mlPrediction := curves.mlPrediction ++ [mlPred]
      final := curves.final ++ [fin] }

/-- part_013 `generatePredictionCurves`: one set of five candidates plus the
conservative selection per 5-minute step of the prediction horizon. -/
def generatePredictionCurves (env : Env) (e : OrefEngine) (currentGlucose : ℚ)
    (entries : List models.GlucoseEntry) (treatments : List models.Treatment)
    (now : ℤ) : PredictionCurves :=
  let momentum := calculateMomentum entries now
  let steps := (e.config.predictionHorizonMinutes / 5).toNat
  (List.range steps).foldl
    (curvesStep env e currentGlucose entries treatments now momentum)
    { iobPrediction := [], cobPrediction := [], ztPrediction := [],
      uamPrediction := [], mlPrediction := [], final := [] }

/-- part_013 `curvesToPredictedPoints`: conversion to the model format with
one-decimal rounding of the value. -/
def curvesToPredictedPoints (points : List PredictionPoint)
    (highConfidence : Bool) : List models.PredictedPoint :=
  points.map (fun p =>
    { time := p.time
      value := goRound (p.value * 10) / 10
      valueMmol := models.toMmol p.value
      confidence := if highConfidence then p.confidence else p.confidence * (4/5)
      insulinEffect := p.insulinEffect
      carbEffect := p.carbEffect
      trendEffect := p.momentumEffect })

end Oref

namespace Analyzer

/-! Embedding of the statistical parameter analyzer
(src/internal/prediction/analyzer.go, statistical path). -/

/-- analyzer.go `correctionEvent`. -/
structure CorrectionEvent where
  time : ℤ
  insulinUnits : ℚ
  bgBefore : ℚ
  bgDrop : ℚ
  timeToStable : ℚ
deriving DecidableEq

/-- analyzer.go `mealEvent`. -/
structure MealEvent where
  time : ℤ
  insulinUnits : ℚ
  carbs : ℚ
  bgBefore : ℚ
  bgAfter : ℚ
  bgPeak : ℚ
  timeToPeak : ℚ
deriving DecidableEq

/-- analyzer.go `findNearestGlucose`: reading nearest to the target within
the given window, 0 when none qualifies (the fold keeps the first of equally
distant readings, like the strict comparison of the source). -/
def findNearestGlucose (entries : List models.GlucoseEntry)
    (targetTime maxDiffMs : ℤ) : ℚ :=
  (entries.foldl (fun (st : ℤ × ℚ) e =>
    let diff0 := e.time - targetTime
    let diff := if diff0 < 0 then -diff0 else diff0
    if diff < st.1 then (diff, (e.sgv : ℚ)) else st) (maxDiffMs, 0)).2

/-- analyzer.go `findPeakGlucose`: peak value and minutes to it inside the
window strictly after the start. -/
def findPeakGlucose (entries : List models.GlucoseEntry)
    (startTime windowMs : ℤ) : ℚ × ℚ :=
  entries.foldl (fun (st : ℚ × ℚ) e =>
    if startTime < e.time ∧ e.time < startTime + windowMs then
      (if st.1 < (e.sgv : ℚ) then ((e.sgv : ℚ), minutesFrom startTime e.time) else st)
    else st) (0, 0)

/-- Loop of analyzer.go `findTimeToStable`: returns the start of the first
30-minute stretch of changes below 10 mg/dL, if one completes. -/
def findTimeToStableAux (startTime endTime : ℤ) :
    List models.GlucoseEntry → ℚ → Option ℤ → Option ℚ
  | [], _, _ => none
  | e :: rest, prevBG, stableStart =>
    if startTime < e.time ∧ e.time < endTime then
      if 0 < prevBG then
        if |(e.sgv : ℚ) - prevBG| < 10 then
          match stableStart with
          | none => findTimeToStableAux startTime endTime rest (e.sgv : ℚ) (some e.time)
          | some ss =>
            if 30 ≤ minutesFrom ss e.time then some (minutesFrom startTime ss)
            else findTimeToStableAux startTime endTime rest (e.sgv : ℚ) (some ss)
        else findTimeToStableAux startTime endTime rest (e.sgv : ℚ) none
      else findTimeToStableAux startTime endTime rest (e.sgv : ℚ) stableStart
    else findTimeToStableAux startTime endTime rest prevBG stableStart

/-- analyzer.go `findTimeToStable` (falls back to the whole window). -/
def findTimeToStable (entries : List models.GlucoseEntry)
    (startTime maxWindowMs : ℤ) : ℚ :=
  match findTimeToStableAux startTime (startTime + maxWindowMs) entries 0 none with
  | some m => m
  | none => minutesFrom 0 maxWindowMs

/-- analyzer.go `findCorrectionEvents`: insulin-only boluses with a known
glucose before and after and no other treatment in the three-hour window. -/
def findCorrectionEvents (entries : List models.GlucoseEntry)
    (treatments : List models.Treatment) : List CorrectionEvent :=
  treatments.foldl (fun events t =>
    if t.hasInsulin ∧ ¬ t.hasCarbs ∧ t.isBolus then
      let bgBefore := findNearestGlucose entries (t.time - 900000) 1800000
      if bgBefore = 0 then events
      else
        let bgAfter := findNearestGlucose entries (t.time + 10800000) 3600000
        if bgAfter = 0 then events
        else
          let hasOtherTreatments := treatments.any (fun other =>
            decide (t.time < other.time ∧ other.time < t.time + 10800000 ∧
              other.id ≠ t.id ∧ (other.hasInsulin ∨ other.hasCarbs)))
          if hasOtherTreatments then events
          else
            let ev : CorrectionEvent :=
              { time := t.time
                insulinUnits := t.insulin
                bgBefore := bgBefore
                bgDrop := bgBefore - bgAfter
                timeToStable := findTimeToStable entries t.time 14400000 }
            events ++ [ev]
    else events) []

/-- analyzer.go `findMealEvents`: insulin-and-carb treatments with known
glucose before and after; the peak is measured over two hours. -/
def findMealEvents (entries : List models.GlucoseEntry)
    (treatments : List models.Treatment) : List MealEvent :=
  treatments.foldl (fun events t =>
    if t.hasInsulin ∧ t.hasCarbs then
      let bgBefore := findNearestGlucose entries (t.time - 900000) 1800000
      if bgBefore = 0 then events
      else
        let bgAfter := findNearestGlucose entries (t.time + 10800000) 3600000
        if bgAfter = 0 then events
        else
          let pk := findPeakGlucose entries t.time 7200000
          let ev : MealEvent :=
            { time := t.time
              insulinUnits := t.insulin
              carbs := t.carbs
              bgBefore := bgBefore
              bgAfter := bgAfter
              bgPeak := pk.1
              timeToPeak := pk.2 }
          events ++ [ev]
    else events) []

/-- analyzer.go `calculateGlucoseStats`.  The sums are written as list sums:
rational addition is associative and commutative, so the slice-order folds
of the source coincide with them. -/
def calculateGlucoseStats (env : Env) (entries : List models.GlucoseEntry)
    (params : models.DiabetesParameters) : models.DiabetesParameters :=
  if entries = [] then params
  else
    let n : ℚ := entries.length
    let sum := (entries.map (fun e => (e.sgv : ℚ))).sum
    let avg := sum / n
    let belowRange : ℚ := (entries.filter (fun e => decide (e.sgv < 70))).length
    let aboveRange : ℚ := (entries.filter (fun e => decide (180 < e.sgv))).length
    let inRange : ℚ := (entries.filter (fun e => decide (70 ≤ e.sgv ∧ e.sgv ≤ 180))).length
    let sumSq := (entries.map (fun e => ((e.sgv : ℚ) - avg) ^ 2)).sum
    let stddev := env.sqrt (sumSq / n)
    { params with
        averageGlucose := avg
        glucoseStdDev := stddev
        timeInRange := inRange / n * 100
        timeBelowRange := belowRange / n * 100
        timeAboveRange := aboveRange / n * 100
        gmi := 331/100 + (2392/100000) * avg
        coefficientOfVariation :=
          (if 0 < avg then stddev / avg * 100 else params.coefficientOfVariation) }

/-- Add a value to the association-list model of a Go day-keyed map. -/
def addToDay (m : List (ℤ × ℚ)) (k : ℤ) (v : ℚ) : List (ℤ × ℚ) :=
  match m with
  | [] => [(k, v)]
  | kv :: rest => if kv.1 = k then (k, kv.2 + v) :: rest else kv :: addToDay rest k v

/-- Per-day insulin totals of analyzer.go `calculateDailyAverages`. -/
def dayMapInsulin (env : Env) (treatments : List models.Treatment) :
    List (ℤ × ℚ) :=
  treatments.foldl (fun m t =>
    if t.hasInsulin then addToDay m (env.dayKey t.time) t.insulin else m) []

/-- Per-day bolus totals. -/
def dayMapBolus (env : Env) (treatments : List models.Treatment) :
    List (ℤ × ℚ) :=
  treatments.foldl (fun m t =>
    if t.hasInsulin ∧ t.isBolus then addToDay m (env.dayKey t.time) t.insulin else m) []

/-- Per-day carb totals. -/
def dayMapCarbs (env : Env) (treatments : List models.Treatment) :
    List (ℤ × ℚ) :=
  treatments.foldl (fun m t =>
    if t.hasCarbs then addToDay m (env.dayKey t.time) t.carbs else m) []

/-- Lookup in the association-list model of a Go map (missing key reads 0). -/
def lookupDay (m : List (ℤ × ℚ)) (k : ℤ) : ℚ :=
  ((m.find? (fun kv => decide (kv.1 = k))).map Prod.snd).getD 0

/-- analyzer.go `calculateDailyAverages`.  Go iterates the three maps in a
randomised order to form the sums; the iteration orders are the explicit
`ordIns`, `ordBolus`, `ordCarbs` key lists (permutations of the key sets). -/
def calculateDailyAverages (env : Env) (treatments : List models.Treatment)
    (params : models.DiabetesParameters)
    (ordIns ordBolus ordCarbs : List ℤ) : models.DiabetesParameters :=
  if treatments = [] then params
  else
    let mIns := dayMapInsulin env treatments
    let mBolus := dayMapBolus env treatments
    let mCarbs := dayMapCarbs env treatments
    let p1 :=
      if mIns = [] then params
      else
        let totalIns := (ordIns.map (lookupDay mIns)).sum
        let totalBolus := (ordBolus.map (lookupDay mBolus)).sum
        let tdi := totalIns / (mIns.length : ℚ)
        let bolus := totalBolus / (mBolus.length : ℚ)
        { params with
            totalDailyInsulin := tdi
            bolusInsulin := bolus
            basalInsulin := tdi - bolus }
    if mCarbs = [] then p1
    else
      { p1 with totalDailyCarbs :=
          ((ordCarbs.map (lookupDay mCarbs)).sum / (mCarbs.length : ℚ)) }

/-- ISF samples accepted by analyzer.go `calculateISF`: positive dose,
nonzero drop, sample in [10, 150]. -/
def isfValues (events : List CorrectionEvent) : List ℚ :=
  events.filterMap (fun event =>
    if 0 < event.insulinUnits ∧ event.bgDrop ≠ 0 then
      let isf := |event.bgDrop| / event.insulinUnits
      if 10 ≤ isf ∧ isf ≤ 150 then some isf else none
    else none)

/-- analyzer.go `calculateISF` given its correction events (the source
computes the events itself and then runs exactly this). -/
def calculateISFFromEvents (events : List CorrectionEvent)
    (params : models.DiabetesParameters) : models.DiabetesParameters :=
  if events = [] then
    let p :=
      if 0 < params.totalDailyInsulin then
        { params with isf := 1800 / params.totalDailyInsulin }
      else params
    { p with isfConfidence := 30 }
  else
    let vals := isfValues events
    if vals ≠ [] then
      { params with
          isf := median vals
          isfConfidence := min 100 ((vals.length : ℚ) * 5) }
    else if 0 < params.totalDailyInsulin then
      { params with isf := 1800 / params.totalDailyInsulin, isfConfidence := 30 }
    else params

/-- analyzer.go `calculateISF`. -/
def calculateISF (entries : List models.GlucoseEntry)
    (treatments : List models.Treatment)
    (params : models.DiabetesParameters) : models.DiabetesParameters :=
  calculateISFFromEvents (findCorrectionEvents entries treatments) params

/-- ICR samples accepted by analyzer.go `calculateICR`: positive dose and
carbs, outcome within 50 mg/dL of baseline, sample in [3, 40]. -/
def icrValues (events : List MealEvent) : List ℚ :=
  events.filterMap (fun event =>
    if 0 < event.insulinUnits ∧ 0 < event.carbs then
      if |event.bgAfter - event.bgBefore| < 50 then
        let icr := event.carbs / event.insulinUnits
        if 3 ≤ icr ∧ icr ≤ 40 then some icr else none
      else none
    else none)

/-- analyzer.go `calculateICR` given its meal events. -/
def calculateICRFromEvents (events : List MealEvent)
    (params : models.DiabetesParameters) : models.DiabetesParameters :=
  if events = [] then
    let p :=
      if 0 < params.totalDailyInsulin then
        { params with icr := 500 / params.totalDailyInsulin }
      else params
    { p with icrConfidence := 30 }
  else
    let vals := icrValues events
    if vals ≠ [] then
      { params with
          icr := median vals
          icrConfidence := min 100 ((vals.length : ℚ) * 5) }
    else if 0 < params.totalDailyInsulin then
      { params with icr := 500 / params.totalDailyInsulin, icrConfidence := 30 }
    else params

/-- analyzer.go `calculateICR`. -/
def calculateICR (entries : List models.GlucoseEntry)
    (treatments : List models.Treatment)
    (params : models.DiabetesParameters) : models.DiabetesParameters :=
  calculateICRFromEvents (findMealEvents entries treatments) params

/-- DIA samples accepted by analyzer.go `calculateDIA`: positive time to
stabilisation converted to hours, sample in [2, 6]. -/
def diaValues (events : List CorrectionEvent) : List ℚ :=
  events.filterMap (fun event =>
    if 0 < event.timeToStable then
      let diaHours := event.timeToStable / 60
      if 2 ≤ diaHours ∧ diaHours ≤ 6 then some diaHours else none
    else none)

/-- analyzer.go `calculateDIA` given its correction events. -/
def calculateDIAFromEvents (events : List CorrectionEvent)
    (params : models.DiabetesParameters) : models.DiabetesParameters :=
  if events.length < 5 then { params with dia := 4, diaConfidence := 20 }
  else
    let vals := diaValues events
    if vals ≠ [] then
      { params with
          dia := median vals
          diaConfidence := min 100 ((vals.length : ℚ) * 10) }
    else { params with dia := 4, diaConfidence := 20 }

/-- Absorption-rate samples accepted by analyzer.go
`calculateCarbAbsorption`, in [10, 100] g/h. -/
def absorptionRates (events : List MealEvent) : List ℚ :=
  events.filterMap (fun event =>
    if 0 < event.timeToPeak ∧ 0 < event.carbs then
      let absorptionTime := event.timeToPeak / 60 * (167/100)
      if 0 < absorptionTime then
        let rate := event.carbs / absorptionTime
        if 10 ≤ rate ∧ rate ≤ 100 then some rate else none
      else none
    else none)

/-- analyzer.go `calculateCarbAbsorption` given its meal events. -/
def calculateCarbAbsorptionFromEvents (events : List MealEvent)
    (params : models.DiabetesParameters) : models.DiabetesParameters :=
  if events.length < 3 then { params with carbAbsorptionRate := 30 }
  else
    let rates := absorptionRates events
    if rates ≠ [] then { params with carbAbsorptionRate := median rates }
    else params

/-- analyzer.go `calculateTimeOfDayVariations`: per-period medians override
the globals once three samples exist in a period (the source iterates maps
keyed by period and writes each key independently, so it is rendered per
period). -/
def calculateTimeOfDayVariations (env : Env)
    (entries : List models.GlucoseEntry) (treatments : List models.Treatment)
    (params : models.DiabetesParameters) : models.DiabetesParameters :=
  let correctionEvents := findCorrectionEvents entries treatments
  let mealEvents := findMealEvents entries treatments
  let isfBy := fun period =>
    let vals := isfValues (correctionEvents.filter (fun ev =>
      decide (models.getTimeOfDayPeriod env ev.time = period)))
    if 3 ≤ vals.length then median vals else params.isf
  let icrBy := fun period =>
    let vals := icrValues (mealEvents.filter (fun ev =>
      decide (models.getTimeOfDayPeriod env ev.time = period)))
    if 3 ≤ vals.length then median vals else params.icr
  { params with
      isfByTimeOfDay := isfBy
      icrByTimeOfDay := icrBy
      basalRateByTimeOfDay := fun _ => params.basalInsulin / 24 }

/-- Days of data coverage: whole days between first and last sorted entry. -/
def dataDaysOf (sortedEntries : List models.GlucoseEntry) : ℤ :=
  match sortedEntries with
  | [] => 0
  | e :: _ => ((sortedEntries.getLastD e).date - e.date) / 86400000

/-- The deterministic core of analyzer.go `AnalyzeData` (everything except
the `CalculatedAt` wall-clock stamp): the seven statistical stages run in
order on the time-sorted data. -/
def analyzeCore (env : Env) (entries : List models.GlucoseEntry)
    (treatments : List models.Treatment)
    (ordIns ordBolus ordCarbs : List ℤ) : models.DiabetesParameters :=
  let sortedEntries := List.insertionSort (fun a b => a.date ≤ b.date) entries
  let sortedTreatments :=
    List.insertionSort (fun (a b : models.Treatment) => a.date ≤ b.date) treatments
  let p1 := calculateGlucoseStats env sortedEntries models.newDiabetesParameters
  let p2 := calculateDailyAverages env sortedTreatments p1 ordIns ordBolus ordCarbs
  let p3 := calculateISF sortedEntries sortedTreatments p2
  let p4 := calculateICR sortedEntries sortedTreatments p3
  let p5 := calculateDIAFromEvents (findCorrectionEvents sortedEntries sortedTreatments) p4
  let p6 := calculateCarbAbsorptionFromEvents (findMealEvents sortedEntries sortedTreatments) p5
  let p7 := calculateTimeOfDayVariations env sortedEntries sortedTreatments p6
  { p7 with
      entriesAnalyzed := entries.length
      treatmentsAnalyzed := treatments.length
      dataDays := dataDaysOf sortedEntries }

/-- analyzer.go `AnalyzeData`: the statistical core plus the `CalculatedAt`
wall-clock stamp. -/
def analyzeData (env : Env) (entries : List models.GlucoseEntry)
    (treatments : List models.Treatment) (now : ℤ)
    (ordIns ordBolus ordCarbs : List ℤ) : models.DiabetesParameters :=
  { analyzeCore env entries treatments ordIns ordBolus ordCarbs with
      calculatedAt := now }

end Analyzer

namespace ServiceModel

/-! Interleaving model of service.go `runCalculation` (statistical mode)
against `CancelCalculation`.  The worker runs the steps of `workerProgram`
in order; `CancelCalculation` can arrive between any two atomic steps and
sets the cancelled flag.  A `checkpoint` step models a call of
`isCancelled()` (service.go lines 157, 171, 185 and 250) and halts the run
when the flag is set; `commit` models the snapshot swap of lines 262-267,
which itself performs no cancellation check. -/

/-- Atomic steps of the worker goroutine. -/
inductive WorkerStep
  | checkpoint
  | fetchEntries
  | fetchTreatments
  | analyze
  | commit
deriving DecidableEq

/-- `runCalculation` in statistical mode: a cancellation check before and
after each fetch, one more after the analysis, then the commit. -/
def workerProgram : List WorkerStep :=
  [.checkpoint, .fetchEntries, .checkpoint, .fetchTreatments, .checkpoint,
   .analyze, .checkpoint, .commit]

/-- Index of the last `checkpoint` of `workerProgram` (line 250). -/
def lastCheckpoint : ℕ := 6

/-- Shared service state: the committed parameter snapshot read by
`getParameters`, the cancellation flag and whether the worker has aborted. -/
structure RunState where
  committed : models.DiabetesParameters
  cancelled : Bool
  halted : Bool

/-- Effect of one worker step on the state. -/
def execStep (newParams : models.DiabetesParameters) (s : RunState) :
    WorkerStep → RunState
  | .checkpoint => if s.cancelled then { s with halted := true } else s
  | .commit => { s with committed := newParams }
  | _ => s

/-- Run the remaining steps; the cancel request arrives just before the
step at distance `cancelAt` (so `cancelAt ≥ length` means it arrives after
the run has finished). -/
def runFrom (newParams : models.DiabetesParameters) :
    List WorkerStep → ℕ → RunState → RunState
  | [], _, s => s
  | step :: rest, cancelAt, s =>
    let s1 := if cancelAt = 0 then { s with cancelled := true } else s
    if s1.halted then s1
    else runFrom newParams rest (cancelAt - 1) (execStep newParams s1 step)

/-- A full recalculation run starting from the committed snapshot
`oldParams`, producing `newParams` when it commits, with the cancel request
arriving just before step `cancelAt`. -/
def runCalculationModel (oldParams newParams : models.DiabetesParameters)
    (cancelAt : ℕ) : RunState :=
  runFrom newParams workerProgram cancelAt
    { committed := oldParams, cancelled := false, halted := false }

end ServiceModel

/-- C9: for every glucose value x in the valid range [glucoseMin, glucoseMax]
= [20, 420] mg/dL, denormalizeGlucose (normalizeGlucose x) recovers x (here
exactly, hence a fortiori within floating tolerance), and normalizeGlucose
maps the valid range into [-1, 1]. -/
theorem C9_normalize_roundtrip (x : ℚ) (hlo : ML.glucoseMin ≤ x)
    (hhi : x ≤ ML.glucoseMax) :
    ML.denormalizeGlucose (ML.normalizeGlucose x) = x ∧
    -1 ≤ ML.normalizeGlucose x ∧ ML.normalizeGlucose x ≤ 1 := by
  refine ⟨?_, ?_, ?_⟩
  · unfold ML.denormalizeGlucose ML.normalizeGlucose ML.glucoseMin ML.glucoseMax
    ring
  · unfold ML.normalizeGlucose ML.glucoseMin ML.glucoseMax at *
    rw [le_div_iff₀ (by norm_num)]
    linarith
  · unfold ML.normalizeGlucose ML.glucoseMin ML.glucoseMax at *
    rw [div_le_iff₀ (by norm_num)]
    linarith

/-- Witness for C9 at x = 120. -/
theorem C9_normalize_roundtrip_witness :
    ML.denormalizeGlucose (ML.normalizeGlucose 120) = 120 ∧
    -1 ≤ ML.normalizeGlucose 120 ∧ ML.normalizeGlucose 120 ≤ 1 :=
  C9_normalize_roundtrip 120 (by norm_num [ML.glucoseMin])
    (by norm_num [ML.glucoseMax])

/-- C5 (counterexample): the claim that a cancel invoked mid-recalculation
always leaves the committed snapshot unchanged is false.  A cancel request
that arrives after the final cooperative checkpoint (step 6) but before the
commit (step 7) — i.e. while the recalculation is still in flight — does
not stop the commit: afterwards getParameters returns the new snapshot
(ISF 42) instead of the pre-recalculation one (ISF 50). -/
theorem C5_cancel_counterexample :
    (ServiceModel.runCalculationModel models.newDiabetesParameters
        { models.newDiabetesParameters with isf := 42 } 7).committed.isf = 42 ∧
    models.newDiabetesParameters.isf = 50 ∧
    7 < ServiceModel.workerProgram.length ∧ (42 : ℚ) ≠ 50 := by
  refine ⟨rfl, rfl, by decide, by norm_num⟩

/-- C5 (amended): a cancel observed by one of the cooperative checkpoints —
that is, a cancel request arriving at or before the final checkpoint of the
run — aborts the run before the commit, so the committed snapshot (what
getParameters returns) is exactly the pre-recalculation one; only a cancel
landing in the window between the final checkpoint and the commit fails to
prevent the (whole, never partial) snapshot swap. -/
theorem C5_cancel_before_last_checkpoint (oldParams newParams :
    models.DiabetesParameters) (cancelAt : ℕ)
    (h : cancelAt ≤ ServiceModel.lastCheckpoint) :
    (ServiceModel.runCalculationModel oldParams newParams cancelAt).committed =
      oldParams := by
  unfold ServiceModel.lastCheckpoint at h
  interval_cases cancelAt <;> rfl

/-- Witness for C5 at cancel position 2. -/
theorem C5_cancel_before_last_checkpoint_witness :
    (ServiceModel.runCalculationModel models.newDiabetesParameters
        { models.newDiabetesParameters with isf := 42 } 2).committed =
      models.newDiabetesParameters :=
  C5_cancel_before_last_checkpoint _ _ 2 (by decide)

/-- C7 (counterexample): the default learned state of the ensemble engine is
not a flat circadian profile: the hourly sensitivity factor installed by
NewOrefEngine for hour 0 is 1.4, not the baseline 1.0. -/
theorem C7_flat_profile_counterexample :
    (Oref.newOrefEngine none).patterns.circadianProfile.hourlySensitivity
        ⟨0, by norm_num⟩ = 7/5 ∧ (7/5 : ℚ) ≠ 1 :=
  ⟨rfl, by norm_num⟩

/-- C7 (amended): with empty or insufficient history (fewer than 100
readings or fewer than 10 treatments) LearnFromHistory is a no-op — no hard
failure, the engine keeps operating on its default learned state — and that
default state has sensitivity ratio 1.0 together with the built-in
dawn-phenomenon circadian prior (hour 0 factor 1.4, hour 5 factor 0.6),
which is not flat. -/
theorem C7_default_state (env : Env) (e : Oref.OrefEngine)
    (params? : Option models.DiabetesParameters)
    (entries : List models.GlucoseEntry) (treatments : List models.Treatment)
    (now : ℤ) (h : entries.length < 100 ∨ treatments.length < 10) :
    Oref.learnFromHistory env e entries treatments now = e ∧
    (Oref.newOrefEngine params?).sensitivityRatio = 1 ∧
    (Oref.newOrefEngine params?).patterns.circadianProfile.hourlySensitivity
        ⟨0, by norm_num⟩ = 7/5 ∧
    (Oref.newOrefEngine params?).patterns.circadianProfile.hourlySensitivity
        ⟨5, by norm_num⟩ = 3/5 := by
  refine ⟨?_, rfl, rfl, rfl⟩
  unfold Oref.learnFromHistory
  rw [if_pos h]

/-- Witness for C7 on empty history. -/
theorem C7_default_state_witness :
    Oref.learnFromHistory env0 (Oref.newOrefEngine none) [] [] 0 =
      Oref.newOrefEngine none ∧
    (Oref.newOrefEngine none).sensitivityRatio = 1 :=
  ⟨(C7_default_state env0 (Oref.newOrefEngine none) none [] [] 0
      (Or.inl (by decide))).1,
   (C7_default_state env0 (Oref.newOrefEngine none) none [] [] 0
      (Or.inl (by decide))).2.1⟩


/-- The running-maximum fold of the short-horizon branch returns one of its
inputs. -/
theorem pickHighest_mem (init : Oref.PredictionPoint) :
    ∀ l : List Oref.PredictionPoint,
      l.foldl (fun highest p => if highest.value < p.value then p else highest)
        init ∈ init :: l := by
  intro l
  induction l generalizing init with
  | nil => simp
  | cons a rest ih =>
    simp only [List.foldl_cons]
    by_cases h : init.value < a.value
    · rw [if_pos h]
      exact List.mem_cons_of_mem _ (ih a)
    · rw [if_neg h]
      rcases List.mem_cons.1 (ih init) with h1 | h2
      · exact List.mem_cons.2 (Or.inl h1)
      · exact List.mem_cons_of_mem _ (List.mem_cons_of_mem _ h2)

/-- The running-maximum fold dominates every input value. -/
theorem pickHighest_ge (init : Oref.PredictionPoint) :
    ∀ l : List Oref.PredictionPoint, ∀ q ∈ init :: l,
      q.value ≤ (l.foldl (fun highest p =>
        if highest.value < p.value then p else highest) init).value := by
  intro l
  induction l generalizing init with
  | nil =>
    intro q hq
    rcases List.mem_cons.1 hq with h1 | h2
    · simp [h1]
    · simp at h2
  | cons a rest ih =>
    intro q hq
    simp only [List.foldl_cons]
    by_cases h : init.value < a.value
    · rw [if_pos h]
      rcases List.mem_cons.1 hq with h1 | h2
      · rw [h1]
        exact le_trans (le_of_lt h) (ih a a (List.mem_cons_self _ _))
      · rcases List.mem_cons.1 h2 with h3 | h4
        · rw [h3]
          exact ih a a (List.mem_cons_self _ _)
        · exact ih a q (List.mem_cons_of_mem _ h4)
    · rw [if_neg h]
      rcases List.mem_cons.1 hq with h1 | h2
      · rw [h1]
        exact ih init init (List.mem_cons_self _ _)
      · rcases List.mem_cons.1 h2 with h3 | h4
        · rw [h3]
          exact le_trans (le_of_not_lt h) (ih init init (List.mem_cons_self _ _))
        · exact ih init q (List.mem_cons_of_mem _ h4)

/-- C2: the horizon-dependent selection policy of the ensemble engine.  At
30 minutes out or less the final point is the generated candidate with the
highest predicted value; between 30 and 120 minutes it is the fixed-weight
blend with weights 0.1 (insulin-only), 0.3 (carb-aware), 0.15
(zero-future-insulin), 0.15 (unannounced-meal) and 0.3 (pattern-informed) —
the carb-aware and pattern-informed candidates carry the greatest weights;
beyond 120 minutes the carb-aware physiological candidate is returned
alone.  iob, cob, zt, uam, ml are the five candidates a forecast step
generates. -/
theorem C2_selection_policy (iob cob zt uam ml : Oref.PredictionPoint)
    (minutesOut : ℚ) :
    (minutesOut ≤ 30 →
      Oref.selectConservativePrediction iob cob zt uam ml minutesOut ∈
        [iob, cob, zt, uam, ml] ∧
      ∀ q ∈ [iob, cob, zt, uam, ml], q.value ≤
        (Oref.selectConservativePrediction iob cob zt uam ml minutesOut).value) ∧
    (30 < minutesOut → minutesOut ≤ 120 →
      (Oref.selectConservativePrediction iob cob zt uam ml minutesOut).value =
        (iob.value * (1/10) + cob.value * (3/10) + zt.value * (3/20) +
          uam.value * (3/20) + ml.value * (3/10)) /
        (1/10 + 3/10 + 3/20 + 3/20 + 3/10)) ∧
    (120 < minutesOut →
      Oref.selectConservativePrediction iob cob zt uam ml minutesOut = cob) := by
  refine ⟨?_, ?_, ?_⟩
  · intro h30
    unfold Oref.selectConservativePrediction
    rw [if_pos h30]
    exact ⟨pickHighest_mem iob [cob, zt, uam, ml],
      pickHighest_ge iob [cob, zt, uam, ml]⟩
  · intro h30 h120
    unfold Oref.selectConservativePrediction
    rw [if_neg (not_le.2 h30), if_pos h120]
    simp only [List.zip_cons_cons, List.zip_nil_right, List.foldl_cons,
      List.foldl_nil]
    ring_nf
  · intro h120
    unfold Oref.selectConservativePrediction
    rw [if_neg (not_le.2 (lt_trans (by norm_num) h120)),
      if_neg (not_le.2 h120)]

/-- A concrete candidate point used by witnesses. -/
def samplePoint (v : ℚ) : Oref.PredictionPoint :=
  { time := 0, value := v, confidence := 90, insulinEffect := 0,
    carbEffect := 0, momentumEffect := 0, sensAdjustment := 1 }

/-- Witness for C2 at concrete candidates and horizon 10 minutes. -/
theorem C2_selection_policy_witness :
    (10 : ℚ) ≤ 30 ∧
    Oref.selectConservativePrediction (samplePoint 100) (samplePoint 130)
        (samplePoint 120) (samplePoint 110) (samplePoint 105) 10 ∈
      [samplePoint 100, samplePoint 130, samplePoint 120, samplePoint 110,
       samplePoint 105] :=
  ⟨by norm_num,
    ((C2_selection_policy (samplePoint 100) (samplePoint 130) (samplePoint 120)
        (samplePoint 110) (samplePoint 105) 10).1 (by norm_num)).1⟩


/-- An element read by index from the ascending sort of a list is an element
of the list. -/
theorem sort_getD_mem (l : List ℚ) (i : ℕ)
    (h : i < l.length) :
    (List.insertionSort (fun a b => a ≤ b) l).getD i 0 ∈ l := by
  have hlen : (List.insertionSort (fun a b => a ≤ b) l).length = l.length :=
    (List.perm_insertionSort _ l).length_eq
  rw [List.getD_eq_getElem _ _ (by rw [hlen]; exact h)]
  exact (List.perm_insertionSort _ l).mem_iff.1 (List.getElem_mem _)

/-- The median of a nonempty list whose elements lie in an interval lies in
the interval. -/
theorem median_mem_of_bounds {l : List ℚ} {a b : ℚ} (hne : l ≠ [])
    (h : ∀ v ∈ l, a ≤ v ∧ v ≤ b) : a ≤ median l ∧ median l ≤ b := by
  have hlen : 0 < l.length := List.length_pos.2 hne
  unfold median
  rw [if_neg hne]
  by_cases hpar : l.length % 2 = 0
  · rw [if_pos hpar]
    have h2 : 2 ≤ l.length := by omega
    have hi1 : l.length / 2 - 1 < l.length := by omega
    have hi2 : l.length / 2 < l.length := by omega
    have m1 := h _ (sort_getD_mem l (l.length / 2 - 1) hi1)
    have m2 := h _ (sort_getD_mem l (l.length / 2) hi2)
    constructor <;> [linarith [m1.1, m2.1]; linarith [m1.2, m2.2]]
  · rw [if_neg hpar]
    have hi : l.length / 2 < l.length := by omega
    exact h _ (sort_getD_mem l (l.length / 2) hi)

/-- C3: every ISF sample the parameter analyzer accepts into the median lies
in [10, 200] (the code accepts exactly [10, 150], a subrange) and every
accepted ICR sample lies in [3, 40]; out-of-bound samples never reach the
accepted lists, and when samples exist the stored ISF/ICR is exactly the
median of the accepted samples — within the same bounds — with no clamp
applied afterwards. -/
theorem C3_bounds_filtered_median (cevents : List Analyzer.CorrectionEvent)
    (mevents : List Analyzer.MealEvent) (params : models.DiabetesParameters) :
    (∀ v ∈ Analyzer.isfValues cevents, 10 ≤ v ∧ v ≤ 200) ∧
    (∀ v ∈ Analyzer.icrValues mevents, 3 ≤ v ∧ v ≤ 40) ∧
    (Analyzer.isfValues cevents ≠ [] →
      (Analyzer.calculateISFFromEvents cevents params).isf =
        median (Analyzer.isfValues cevents) ∧
      10 ≤ median (Analyzer.isfValues cevents) ∧
      median (Analyzer.isfValues cevents) ≤ 200) ∧
    (Analyzer.icrValues mevents ≠ [] →
      (Analyzer.calculateICRFromEvents mevents params).icr =
        median (Analyzer.icrValues mevents) ∧
      3 ≤ median (Analyzer.icrValues mevents) ∧
      median (Analyzer.icrValues mevents) ≤ 40) := by
  have hisf : ∀ v ∈ Analyzer.isfValues cevents, 10 ≤ v ∧ v ≤ 200 := by
    intro v hv
    rcases List.mem_filterMap.1 hv with ⟨ev, _, hev⟩
    by_cases h1 : 0 < ev.insulinUnits ∧ ev.bgDrop ≠ 0
    · rw [if_pos h1] at hev
      by_cases h2 : 10 ≤ |ev.bgDrop| / ev.insulinUnits ∧
          |ev.bgDrop| / ev.insulinUnits ≤ 150
      · rw [if_pos h2] at hev
        cases hev
        exact ⟨h2.1, by linarith [h2.2]⟩
      · rw [if_neg h2] at hev
        cases hev
    · rw [if_neg h1] at hev
      cases hev
  have hicr : ∀ v ∈ Analyzer.icrValues mevents, 3 ≤ v ∧ v ≤ 40 := by
    intro v hv
    rcases List.mem_filterMap.1 hv with ⟨ev, _, hev⟩
    by_cases h1 : 0 < ev.insulinUnits ∧ 0 < ev.carbs
    · rw [if_pos h1] at hev
      by_cases h2 : |ev.bgAfter - ev.bgBefore| < 50
      · rw [if_pos h2] at hev
        by_cases h3 : 3 ≤ ev.carbs / ev.insulinUnits ∧
            ev.carbs / ev.insulinUnits ≤ 40
        · rw [if_pos h3] at hev
          cases hev
          exact h3
        · rw [if_neg h3] at hev
          cases hev
      · rw [if_neg h2] at hev
        cases hev
    · rw [if_neg h1] at hev
      cases hev
  refine ⟨hisf, hicr, ?_, ?_⟩
  · intro hne
    have hev_ne : cevents ≠ [] := by
      intro hc
      exact hne (by rw [hc]; rfl)
    have hmed := median_mem_of_bounds hne hisf
    refine ⟨?_, hmed.1, hmed.2⟩
    unfold Analyzer.calculateISFFromEvents
    rw [if_neg hev_ne]
    simp only [hne, if_true, ne_eq, not_false_eq_true]
  · intro hne
    have hev_ne : mevents ≠ [] := by
      intro hc
      exact hne (by rw [hc]; rfl)
    have hmed := median_mem_of_bounds hne hicr
    refine ⟨?_, hmed.1, hmed.2⟩
    unfold Analyzer.calculateICRFromEvents
    rw [if_neg hev_ne]
    simp only [hne, if_true, ne_eq, not_false_eq_true]

/-- A concrete correction event used by witnesses (one unit, 50 mg/dL drop). -/
def sampleCorrection : Analyzer.CorrectionEvent :=
  { time := 0, insulinUnits := 1, bgBefore := 200, bgDrop := 50,
    timeToStable := 180 }

/-- A concrete meal event used by witnesses (one unit, 10 g, +20 outcome). -/
def sampleMeal : Analyzer.MealEvent :=
  { time := 0, insulinUnits := 1, carbs := 10, bgBefore := 100,
    bgAfter := 120, bgPeak := 150, timeToPeak := 45 }

/-- Witness for C3 at one accepted correction and one accepted meal event. -/
theorem C3_bounds_filtered_median_witness :
    (Analyzer.calculateISFFromEvents [sampleCorrection]
        models.newDiabetesParameters).isf =
      median (Analyzer.isfValues [sampleCorrection]) ∧
    (Analyzer.calculateICRFromEvents [sampleMeal]
        models.newDiabetesParameters).icr =
      median (Analyzer.icrValues [sampleMeal]) :=
  ⟨((C3_bounds_filtered_median [sampleCorrection] [sampleMeal]
      models.newDiabetesParameters).2.2.1
      (by norm_num [Analyzer.isfValues, sampleCorrection,
        List.filterMap_cons])).1,
   ((C3_bounds_filtered_median [sampleCorrection] [sampleMeal]
      models.newDiabetesParameters).2.2.2
      (by norm_num [Analyzer.icrValues, sampleMeal,
        List.filterMap_cons])).1⟩

/-- Confidence of the ISF estimation path. -/
theorem isfConf_of_vals_ne (events : List Analyzer.CorrectionEvent)
    (p : models.DiabetesParameters) (h : Analyzer.isfValues events ≠ []) :
    (Analyzer.calculateISFFromEvents events p).isfConfidence =
      min 100 (((Analyzer.isfValues events).length : ℚ) * 5) := by
  have hev : events ≠ [] := by
    intro hc
    exact h (by rw [hc]; rfl)
  simp only [Analyzer.calculateISFFromEvents, if_neg hev, if_pos h]

/-- Confidence of the ICR estimation path. -/
theorem icrConf_of_vals_ne (events : List Analyzer.MealEvent)
    (p : models.DiabetesParameters) (h : Analyzer.icrValues events ≠ []) :
    (Analyzer.calculateICRFromEvents events p).icrConfidence =
      min 100 (((Analyzer.icrValues events).length : ℚ) * 5) := by
  have hev : events ≠ [] := by
    intro hc
    exact h (by rw [hc]; rfl)
  simp only [Analyzer.calculateICRFromEvents, if_neg hev, if_pos h]

/-- Confidence of the DIA estimation path. -/
theorem diaConf_of_vals_ne (events : List Analyzer.CorrectionEvent)
    (p : models.DiabetesParameters) (h5 : 5 ≤ events.length)
    (h : Analyzer.diaValues events ≠ []) :
    (Analyzer.calculateDIAFromEvents events p).diaConfidence =
      min 100 (((Analyzer.diaValues events).length : ℚ) * 10) := by
  simp only [Analyzer.calculateDIAFromEvents, if_neg (by omega : ¬ events.length < 5),
    if_pos h]

/-- Capped confidence formulas lie in [0, 100]. -/
theorem minCap_bounds {n : ℕ} {c : ℚ} (hc : 0 ≤ c) :
    0 ≤ min 100 ((n : ℚ) * c) ∧ min 100 ((n : ℚ) * c) ≤ 100 :=
  ⟨le_min (by norm_num) (by positivity), min_le_left _ _⟩

/-- Capped confidence formulas are monotone in the sample count. -/
theorem minCap_mono {n m : ℕ} {c : ℚ} (hc : 0 ≤ c) (hnm : n ≤ m) :
    min 100 ((n : ℚ) * c) ≤ min 100 ((m : ℚ) * c) :=
  min_le_min le_rfl (mul_le_mul_of_nonneg_right (by exact_mod_cast hnm) hc)

/-- C8 (counterexample): confidence is not a non-decreasing function of the
number of qualifying events: with zero qualifying events the ISF fallback
reports confidence 30, while a single qualifying event reports
min(100, 5*1) = 5 < 30. -/
theorem C8_confidence_counterexample :
    (Analyzer.calculateISFFromEvents [] models.newDiabetesParameters).isfConfidence = 30 ∧
    (Analyzer.isfValues [sampleCorrection]).length = 1 ∧
    (Analyzer.calculateISFFromEvents [sampleCorrection]
        models.newDiabetesParameters).isfConfidence = 5 ∧
    ¬ (30 : ℚ) ≤ 5 := by
  have hvals : Analyzer.isfValues [sampleCorrection] = [50] := by
    norm_num [Analyzer.isfValues, sampleCorrection, List.filterMap_cons]
  refine ⟨rfl, by rw [hvals]; rfl, ?_, by norm_num⟩
  rw [isfConf_of_vals_ne _ _ (by rw [hvals]; exact List.cons_ne_nil _ _), hvals]
  norm_num

/-- C8 (amended): every confidence the analyzer produces lies in [0, 100]
(the untouched-field path keeps a value assumed in range); on the
estimation path — at least one accepted sample — the confidence is exactly
min(100, 5 * samples) for ISF and ICR and min(100, 10 * samples) for DIA,
which is non-decreasing in the accepted sample count and capped at 100.
The fallback paths use the fixed confidences 30 (ISF, ICR) and 20 (DIA),
also inside [0, 100], and these break monotonicity only at zero samples. -/
theorem C8_confidence_amended
    (cevents cevents2 : List Analyzer.CorrectionEvent)
    (mevents mevents2 : List Analyzer.MealEvent)
    (p : models.DiabetesParameters)
    (hp1 : 0 ≤ p.isfConfidence) (hp2 : p.isfConfidence ≤ 100)
    (hq1 : 0 ≤ p.icrConfidence) (hq2 : p.icrConfidence ≤ 100) :
    (0 ≤ (Analyzer.calculateISFFromEvents cevents p).isfConfidence ∧
      (Analyzer.calculateISFFromEvents cevents p).isfConfidence ≤ 100) ∧
    (0 ≤ (Analyzer.calculateICRFromEvents mevents p).icrConfidence ∧
      (Analyzer.calculateICRFromEvents mevents p).icrConfidence ≤ 100) ∧
    (0 ≤ (Analyzer.calculateDIAFromEvents cevents p).diaConfidence ∧
      (Analyzer.calculateDIAFromEvents cevents p).diaConfidence ≤ 100) ∧
    (Analyzer.isfValues cevents ≠ [] →
      (Analyzer.calculateISFFromEvents cevents p).isfConfidence =
        min 100 (((Analyzer.isfValues cevents).length : ℚ) * 5)) ∧
    (Analyzer.isfValues cevents ≠ [] → Analyzer.isfValues cevents2 ≠ [] →
      (Analyzer.isfValues cevents).length ≤ (Analyzer.isfValues cevents2).length →
      (Analyzer.calculateISFFromEvents cevents p).isfConfidence ≤
        (Analyzer.calculateISFFromEvents cevents2 p).isfConfidence) ∧
    (Analyzer.icrValues mevents ≠ [] → Analyzer.icrValues mevents2 ≠ [] →
      (Analyzer.icrValues mevents).length ≤ (Analyzer.icrValues mevents2).length →
      (Analyzer.calculateICRFromEvents mevents p).icrConfidence ≤
        (Analyzer.calculateICRFromEvents mevents2 p).icrConfidence) ∧
    (5 ≤ cevents.length → Analyzer.diaValues cevents ≠ [] →
      5 ≤ cevents2.length → Analyzer.diaValues cevents2 ≠ [] →
      (Analyzer.diaValues cevents).length ≤ (Analyzer.diaValues cevents2).length →
      (Analyzer.calculateDIAFromEvents cevents p).diaConfidence ≤
        (Analyzer.calculateDIAFromEvents cevents2 p).diaConfidence) := by
  refine ⟨?_, ?_, ?_, ?_, ?_, ?_, ?_⟩
  · by_cases he : cevents = []
    · simp only [Analyzer.calculateISFFromEvents, if_pos he]
      constructor <;> norm_num
    · by_cases hv : Analyzer.isfValues cevents ≠ []
      · rw [isfConf_of_vals_ne _ _ hv]
        exact minCap_bounds (by norm_num)
      · by_cases ht : 0 < p.totalDailyInsulin
        · simp only [Analyzer.calculateISFFromEvents, if_neg he, if_neg hv, if_pos ht]
          constructor <;> norm_num
        · simp only [Analyzer.calculateISFFromEvents, if_neg he, if_neg hv, if_neg ht]
          exact ⟨hp1, hp2⟩
  · by_cases he : mevents = []
    · simp only [Analyzer.calculateICRFromEvents, if_pos he]
      constructor <;> norm_num
    · by_cases hv : Analyzer.icrValues mevents ≠ []
      · rw [icrConf_of_vals_ne _ _ hv]
        exact minCap_bounds (by norm_num)
      · by_cases ht : 0 < p.totalDailyInsulin
        · simp only [Analyzer.calculateICRFromEvents, if_neg he, if_neg hv, if_pos ht]
          constructor <;> norm_num
        · simp only [Analyzer.calculateICRFromEvents, if_neg he, if_neg hv, if_neg ht]
          exact ⟨hq1, hq2⟩
  · by_cases h5 : cevents.length < 5
    · simp only [Analyzer.calculateDIAFromEvents, if_pos h5]
      constructor <;> norm_num
    · by_cases hv : Analyzer.diaValues cevents ≠ []
      · rw [diaConf_of_vals_ne _ _ (by omega) hv]
        exact minCap_bounds (by norm_num)
      · simp only [Analyzer.calculateDIAFromEvents, if_neg h5, if_neg hv]
        constructor <;> norm_num
  · intro hv
    exact isfConf_of_vals_ne _ _ hv
  · intro hv1 hv2 hlen
    rw [isfConf_of_vals_ne _ _ hv1, isfConf_of_vals_ne _ _ hv2]
    exact minCap_mono (by norm_num) hlen
  · intro hv1 hv2 hlen
    rw [icrConf_of_vals_ne _ _ hv1, icrConf_of_vals_ne _ _ hv2]
    exact minCap_mono (by norm_num) hlen
  · intro h5a hv1 h5b hv2 hlen
    rw [diaConf_of_vals_ne _ _ h5a hv1, diaConf_of_vals_ne _ _ h5b hv2]
    exact minCap_mono (by norm_num) hlen

/-- Witness for C8 at one accepted sample versus two copies of it. -/
theorem C8_confidence_amended_witness :
    (Analyzer.calculateISFFromEvents [sampleCorrection]
        models.newDiabetesParameters).isfConfidence ≤
      (Analyzer.calculateISFFromEvents [sampleCorrection, sampleCorrection]
        models.newDiabetesParameters).isfConfidence := by
  have h1 : Analyzer.isfValues [sampleCorrection] = [50] := by
    norm_num [Analyzer.isfValues, sampleCorrection, List.filterMap_cons]
  have h2 : Analyzer.isfValues [sampleCorrection, sampleCorrection] = [50, 50] := by
    norm_num [Analyzer.isfValues, sampleCorrection, List.filterMap_cons]
  exact (C8_confidence_amended [sampleCorrection] [sampleCorrection, sampleCorrection]
      [] [] models.newDiabetesParameters (by norm_num [models.newDiabetesParameters])
      (by norm_num [models.newDiabetesParameters])
      (by norm_num [models.newDiabetesParameters])
      (by norm_num [models.newDiabetesParameters])).2.2.2.2.1
    (by rw [h1]; exact List.cons_ne_nil _ _)
    (by rw [h2]; exact List.cons_ne_nil _ _)
    (by rw [h1, h2]; norm_num)

instance : Inhabited Oref.PredictionPoint :=
  ⟨{ time := 0, value := 0, confidence := 0, insulinEffect := 0,
     carbEffect := 0, momentumEffect := 0, sensAdjustment := 0 }⟩

/-- The clamp `math.Max(20, math.Min(500, x))` lands in [20, 500]. -/
theorem clamp_bounds (x : ℚ) :
    20 ≤ max 20 (min 500 x) ∧ max 20 (min 500 x) ≤ 500 :=
  ⟨le_max_left _ _, max_le (by norm_num) (min_le_left _ _)⟩

/-- `applyConstraints` lands in [20, 500]. -/
theorem applyConstraints_bounds (v m : ℚ) :
    20 ≤ Phys.applyConstraints v m ∧ Phys.applyConstraints v m ≤ 500 := by
  unfold Phys.applyConstraints
  by_cases h1 : v < 20
  · simp only [if_pos h1]
    norm_num
  · simp only [if_neg h1]
    by_cases h2 : (500 : ℚ) < v
    · simp only [if_pos h2]
      norm_num
    · simp only [if_neg h2]
      constructor <;> linarith

/-- `math.Round` of a nonnegative value bounded by integers stays inside
the integer bounds. -/
theorem goRound_int_bounds {x : ℚ} {a b : ℤ} (hx : 0 ≤ x)
    (h1 : (a : ℚ) ≤ x) (h2 : x ≤ (b : ℚ)) :
    (a : ℚ) ≤ goRound x ∧ goRound x ≤ (b : ℚ) := by
  unfold goRound
  rw [if_pos hx]
  constructor
  · exact_mod_cast Int.le_floor.mpr (by linarith)
  · exact_mod_cast Int.floor_le_iff.mpr (by linarith)

/-- The one-decimal rounding of a clamped value stays in [20, 500]. -/
theorem roundTenth_bounds {v : ℚ} (h1 : 20 ≤ v) (h2 : v ≤ 500) :
    20 ≤ goRound (v * 10) / 10 ∧ goRound (v * 10) / 10 ≤ 500 := by
  have h := @goRound_int_bounds (v * 10) 200 5000
    (by linarith) (by norm_num; linarith) (by norm_num; linarith)
  have ha : (200 : ℚ) ≤ goRound (v * 10) := by exact_mod_cast h.1
  have hb : goRound (v * 10) ≤ (5000 : ℚ) := by exact_mod_cast h.2
  constructor <;> linarith

/-- Every point of the `predictRange` loop carries a value in [20, 500]. -/
theorem predictRangeAux_value_bounds (env : Env) (p : Phys.Predictor)
    (trend : ℚ) (n : ℕ) (treatments : List models.Treatment)
    (st iv : ℤ) (hc : Bool) :
    ∀ (steps i : ℕ) (prev : ℚ),
      ∀ pt ∈ Phys.predictRangeAux env p trend n treatments st iv hc steps i prev,
        20 ≤ pt.value ∧ pt.value ≤ 500 := by
  intro steps
  induction steps with
  | zero => intro i prev pt hpt; simp [Phys.predictRangeAux] at hpt
  | succ k ih =>
    intro i prev pt hpt
    simp only [Phys.predictRangeAux] at hpt
    rcases List.mem_cons.1 hpt with h | h
    · subst h
      exact roundTenth_bounds (applyConstraints_bounds _ _).1
        (applyConstraints_bounds _ _).2
    · exact ih _ _ pt h

/-- The insulin-only candidate value is clamped. -/
theorem predictIOBOnly_value_bounds (env : Env) (e : Oref.OrefEngine)
    (bg mom : ℚ) (treatments : List models.Treatment) (st pt : ℤ) :
    20 ≤ (Oref.predictIOBOnly env e bg mom treatments st pt).value ∧
      (Oref.predictIOBOnly env e bg mom treatments st pt).value ≤ 500 := by
  simp only [Oref.predictIOBOnly]
  exact clamp_bounds _

/-- The carb-aware candidate value is clamped. -/
theorem predictWithCOB_value_bounds (env : Env) (e : Oref.OrefEngine)
    (bg mom : ℚ) (treatments : List models.Treatment) (st pt : ℤ) :
    20 ≤ (Oref.predictWithCOB env e bg mom treatments st pt).value ∧
      (Oref.predictWithCOB env e bg mom treatments st pt).value ≤ 500 := by
  simp only [Oref.predictWithCOB]
  exact clamp_bounds _

/-- The zero-temp candidate value equals the carb-aware one. -/
theorem predictZeroTemp_value_bounds (env : Env) (e : Oref.OrefEngine)
    (bg mom : ℚ) (treatments : List models.Treatment) (st pt : ℤ) :
    20 ≤ (Oref.predictZeroTemp env e bg mom treatments st pt).value ∧
      (Oref.predictZeroTemp env e bg mom treatments st pt).value ≤ 500 := by
  simp only [Oref.predictZeroTemp]
  exact predictWithCOB_value_bounds env e bg mom treatments st pt

/-- The unannounced-meal candidate value is clamped. -/
theorem predictUAM_value_bounds (env : Env) (e : Oref.OrefEngine)
    (bg : ℚ) (entries : List models.GlucoseEntry)
    (treatments : List models.Treatment) (st pt : ℤ) :
    20 ≤ (Oref.predictUAM env e bg entries treatments st pt).value ∧
      (Oref.predictUAM env e bg entries treatments st pt).value ≤ 500 := by
  simp only [Oref.predictUAM]
  exact clamp_bounds _

/-- The pattern-informed candidate value is clamped. -/
theorem predictML_value_bounds (env : Env) (e : Oref.OrefEngine)
    (bg : ℚ) (entries : List models.GlucoseEntry)
    (treatments : List models.Treatment) (st pt : ℤ) :
    20 ≤ (Oref.predictML env e bg entries treatments st pt).value ∧
      (Oref.predictML env e bg entries treatments st pt).value ≤ 500 := by
  simp only [Oref.predictML]
  exact clamp_bounds _

/-- Closed form of the medium-horizon blend value. -/
theorem select_blend_value (iob cob zt uam ml : Oref.PredictionPoint)
    (m : ℚ) (h30 : 30 < m) (h120 : m ≤ 120) :
    (Oref.selectConservativePrediction iob cob zt uam ml m).value =
      (iob.value * (1/10) + cob.value * (3/10) + zt.value * (3/20) +
        uam.value * (3/20) + ml.value * (3/10)) /
      (1/10 + 3/10 + 3/20 + 3/20 + 3/10) := by
  unfold Oref.selectConservativePrediction
  rw [if_neg (not_le.2 h30), if_pos h120]
  simp only [List.zip_cons_cons, List.zip_nil_right, List.foldl_cons,
    List.foldl_nil]
  ring_nf

/-- The conservative selection preserves the [20, 500] value bound of the
five candidates. -/
theorem selectConservativePrediction_bounds
    (iob cob zt uam ml : Oref.PredictionPoint) (m : ℚ)
    (h : ∀ q ∈ [iob, cob, zt, uam, ml], 20 ≤ q.value ∧ q.value ≤ 500) :
    20 ≤ (Oref.selectConservativePrediction iob cob zt uam ml m).value ∧
      (Oref.selectConservativePrediction iob cob zt uam ml m).value ≤ 500 := by
  by_cases h30 : m ≤ 30
  · have hmem : Oref.selectConservativePrediction iob cob zt uam ml m ∈
        [iob, cob, zt, uam, ml] := by
      unfold Oref.selectConservativePrediction
      rw [if_pos h30]
      exact pickHighest_mem iob [cob, zt, uam, ml]
    exact h _ hmem
  · by_cases h120 : m ≤ 120
    · rw [select_blend_value iob cob zt uam ml m (not_le.1 h30) h120]
      have h1 := h iob (by simp)
      have h2 := h cob (by simp)
      have h3 := h zt (by simp)
      have h4 := h uam (by simp)
      have h5 := h ml (by simp)
      have hden : (1/10 + 3/10 + 3/20 + 3/20 + 3/10 : ℚ) = 1 := by norm_num
      rw [hden, div_one]
      constructor <;> nlinarith [h1.1, h1.2, h2.1, h2.2, h3.1, h3.2, h4.1,
        h4.2, h5.1, h5.2]
    · have : Oref.selectConservativePrediction iob cob zt uam ml m = cob := by
        unfold Oref.selectConservativePrediction
        rw [if_neg h30, if_neg h120]
      rw [this]
      exact h cob (by simp)

/-- Every point the curve-generation fold appends to the final curve is in
[20, 500]. -/
theorem curvesFold_final_bounds (env : Env) (e : Oref.OrefEngine) (g : ℚ)
    (entries : List models.GlucoseEntry) (treatments : List models.Treatment)
    (now : ℤ) (momentum : ℚ) :
    ∀ (l : List ℕ) (c : Oref.PredictionCurves),
      (∀ q ∈ c.final, 20 ≤ q.value ∧ q.value ≤ 500) →
      ∀ pt ∈ (l.foldl
          (Oref.curvesStep env e g entries treatments now momentum) c).final,
        20 ≤ pt.value ∧ pt.value ≤ 500 := by
  intro l
  induction l with
  | nil => intro c hc pt hpt; exact hc pt hpt
  | cons a rest ih =>
    intro c hc pt hpt
    rw [List.foldl_cons] at hpt
    refine ih _ ?_ pt hpt
    intro q hq
    simp only [Oref.curvesStep] at hq
    rcases List.mem_append.1 hq with h | h
    · exact hc q h
    · have hsel := selectConservativePrediction_bounds
        (Oref.predictIOBOnly env e g momentum treatments now (now + (↑(a + 1)) * 300000))
        (Oref.predictWithCOB env e g momentum treatments now (now + (↑(a + 1)) * 300000))
        (Oref.predictZeroTemp env e g momentum treatments now (now + (↑(a + 1)) * 300000))
        (Oref.predictUAM env e g entries treatments now (now + (↑(a + 1)) * 300000))
        (Oref.predictML env e g entries treatments now (now + (↑(a + 1)) * 300000))
        ((↑(a + 1)) * 5) ?_
      · rcases List.mem_singleton.1 h with rfl
        exact hsel
      · intro q hq
        rcases List.mem_cons.1 hq with rfl | hq
        · exact predictIOBOnly_value_bounds env e g momentum treatments now _
        rcases List.mem_cons.1 hq with rfl | hq
        · exact predictWithCOB_value_bounds env e g momentum treatments now _
        rcases List.mem_cons.1 hq with rfl | hq
        · exact predictZeroTemp_value_bounds env e g momentum treatments now _
        rcases List.mem_cons.1 hq with rfl | hq
        · exact predictUAM_value_bounds env e g entries treatments now _
        rcases List.mem_cons.1 hq with rfl | hq
        · exact predictML_value_bounds env e g entries treatments now _
        · simp at hq

/-- C1: every predicted point value lies in the configured safety range
[20, 500] mg/dL, whatever the IOB, COB and trend inputs are: (i) every
point of the physiological predictor loop — the short-horizon (2 h / 5 min)
and long-horizon (6 h / 15 min) sequences of Predict() are its instances —
because applyConstraints clamps every step; (ii) every point of the
ensemble engine final curve, because all five candidates are clamped at
every forecast step and the conservative selection preserves the bound;
(iii) the clamp also survives the one-decimal rounding of the conversion to
model points. -/
theorem C1_forecast_safety_range (env : Env) (p : Phys.Predictor)
    (g trend : ℚ) (entries : List models.GlucoseEntry)
    (treatments : List models.Treatment) (st dur iv : ℤ) (hc : Bool)
    (e : Oref.OrefEngine) (g2 : ℚ) (entries2 : List models.GlucoseEntry)
    (treatments2 : List models.Treatment) (now : ℤ) :
    (∀ pt ∈ Phys.predictRange env p g trend entries treatments st dur iv hc,
      20 ≤ pt.value ∧ pt.value ≤ 500) ∧
    (∀ pt ∈ (Oref.generatePredictionCurves env e g2 entries2 treatments2 now).final,
      20 ≤ pt.value ∧ pt.value ≤ 500) ∧
    (∀ pt ∈ Oref.curvesToPredictedPoints
        (Oref.generatePredictionCurves env e g2 entries2 treatments2 now).final hc,
      20 ≤ pt.value ∧ pt.value ≤ 500) := by
  have hfinal : ∀ pt ∈ (Oref.generatePredictionCurves env e g2 entries2
      treatments2 now).final, 20 ≤ pt.value ∧ pt.value ≤ 500 := by
    unfold Oref.generatePredictionCurves
    exact curvesFold_final_bounds env e g2 entries2 treatments2 now _ _ _
      (by intro q hq; simp at hq)
  refine ⟨?_, hfinal, ?_⟩
  · intro pt hpt
    exact predictRangeAux_value_bounds env p trend entries.length treatments
      st iv hc _ _ _ pt hpt
  · intro pt hpt
    unfold Oref.curvesToPredictedPoints at hpt
    rcases List.mem_map.1 hpt with ⟨q, hq, rfl⟩
    have hb := hfinal q hq
    exact roundTenth_bounds hb.1 hb.2

/-- Engine used by witnesses: default engine with a 5-minute horizon. -/
def witnessEngine : Oref.OrefEngine :=
  { Oref.newOrefEngine none with
      config := { Oref.defaultOrefConfig with predictionHorizonMinutes := 5 } }

/-- Witness for C1: the first point of a one-step physiological forecast and
the first point of a one-step ensemble final curve are in range. -/
theorem C1_forecast_safety_range_witness :
    (20 ≤ (Phys.predictRange env0 ⟨models.newDiabetesParameters⟩ 120 0 [] []
        0 300000 300000 true).head!.value ∧
      (Phys.predictRange env0 ⟨models.newDiabetesParameters⟩ 120 0 [] []
        0 300000 300000 true).head!.value ≤ 500) ∧
    (20 ≤ (Oref.generatePredictionCurves env0 witnessEngine 120 [] []
        0).final.head!.value ∧
      (Oref.generatePredictionCurves env0 witnessEngine 120 [] []
        0).final.head!.value ≤ 500) := by
  have hc := C1_forecast_safety_range env0 ⟨models.newDiabetesParameters⟩
    120 0 [] [] 0 300000 300000 true witnessEngine 120 [] [] 0
  have hne1 : Phys.predictRange env0 ⟨models.newDiabetesParameters⟩ 120 0 [] []
      0 300000 300000 true ≠ [] := by
    show Phys.predictRangeAux _ _ _ _ _ _ _ _ (((300000 : ℤ) / 300000).toNat) 1 120 ≠ []
    have h1 : ((300000 : ℤ) / 300000).toNat = 1 := by decide
    rw [h1]
    simp only [Phys.predictRangeAux]
    exact List.cons_ne_nil _ _
  have hne2 : (Oref.generatePredictionCurves env0 witnessEngine 120 [] []
      0).final ≠ [] := by
    unfold Oref.generatePredictionCurves
    have h1 : ((witnessEngine.config.predictionHorizonMinutes / 5).toNat) = 1 := by decide
    rw [h1]
    dsimp only
    rw [show List.range 1 = [0] from rfl, List.foldl_cons, List.foldl_nil]
    simp only [Oref.curvesStep]
    exact List.append_ne_nil_of_right_ne_nil _ (List.cons_ne_nil _ _)
  exact ⟨hc.1 _ (List.head!_mem_self hne1), hc.2.1 _ (List.head!_mem_self hne2)⟩

/-- part_014 insulin activity: exactly 1 at or before the dose. -/
theorem phys_activity_one (p : Phys.Predictor) (m : ℚ) (h : m ≤ 0) :
    Phys.insulinActivityRemaining p m = 1 := by
  unfold Phys.insulinActivityRemaining
  rw [if_pos h]

/-- part_014 insulin activity: exactly 0 at or beyond the DIA window. -/
theorem phys_activity_zero (p : Phys.Predictor) (m : ℚ) (h0 : 0 < m)
    (h : p.params.dia * 60 ≤ m) : Phys.insulinActivityRemaining p m = 0 := by
  unfold Phys.insulinActivityRemaining
  rw [if_neg (not_le.2 h0)]
  simp only [if_pos h]

/-- part_014 insulin activity always lies in [0, 1]. -/
theorem phys_activity_bounds (p : Phys.Predictor) (m : ℚ) :
    0 ≤ Phys.insulinActivityRemaining p m ∧
      Phys.insulinActivityRemaining p m ≤ 1 := by
  unfold Phys.insulinActivityRemaining
  by_cases h1 : m ≤ 0
  · rw [if_pos h1]; norm_num
  · rw [if_neg h1]
    by_cases h2 : p.params.dia * 60 ≤ m
    · simp only [if_pos h2]; norm_num
    · simp only [if_neg h2]
      have hm : 0 < m := lt_of_not_le h1
      have hd : m < p.params.dia * 60 := lt_of_not_le h2
      by_cases h3 : m < 75
      · simp only [if_pos h3]
        constructor <;> nlinarith
      · simp only [if_neg h3]
        have h75 : (75 : ℚ) ≤ m := not_lt.1 h3
        have hpos : 0 < p.params.dia * 60 - 75 := by linarith
        have hnum : 0 ≤ p.params.dia * 60 - m := by linarith
        have hr1 : 0 ≤ (p.params.dia * 60 - m) / (p.params.dia * 60 - 75) :=
          div_nonneg hnum (le_of_lt hpos)
        have hr2 : (p.params.dia * 60 - m) / (p.params.dia * 60 - 75) ≤ 1 :=
          (div_le_one hpos).2 (by linarith)
        constructor <;> nlinarith

/-- part_013 insulin activity: exactly 1 at or before the dose. -/
theorem oref_activity_one (env : Env) (e : Oref.OrefEngine) (m : ℚ)
    (h : m ≤ 0) : Oref.insulinActivityRemaining env e m = 1 := by
  unfold Oref.insulinActivityRemaining
  rw [if_pos h]

/-- part_013 insulin activity: exactly 0 at or beyond the DIA window. -/
theorem oref_activity_zero (env : Env) (e : Oref.OrefEngine) (m : ℚ)
    (h0 : 0 < m) (h : e.config.diaMinutes ≤ m) :
    Oref.insulinActivityRemaining env e m = 0 := by
  unfold Oref.insulinActivityRemaining
  rw [if_neg (not_le.2 h0)]
  simp only [if_pos h]

/-- part_013 insulin activity always lies in [0, 1] (the source clamps). -/
theorem oref_activity_bounds (env : Env) (e : Oref.OrefEngine) (m : ℚ) :
    0 ≤ Oref.insulinActivityRemaining env e m ∧
      Oref.insulinActivityRemaining env e m ≤ 1 := by
  unfold Oref.insulinActivityRemaining
  by_cases h1 : m ≤ 0
  · rw [if_pos h1]; norm_num
  · rw [if_neg h1]
    by_cases h2 : e.config.diaMinutes ≤ m
    · simp only [if_pos h2]; norm_num
    · simp only [if_neg h2]
      exact ⟨le_max_left _ _, max_le (by norm_num) (min_le_left _ _)⟩

/-- A fold whose step never decreases the accumulator and never adds more
than the treatment insulin contribution is bounded by the insulin total. -/
theorem foldl_step_bounds (step : ℚ → models.Treatment → ℚ)
    (hstep : ∀ acc t, acc ≤ step acc t ∧
      step acc t ≤ acc + (if t.hasInsulin then t.insulin else 0)) :
    ∀ (ts : List models.Treatment) (acc : ℚ),
      acc ≤ ts.foldl step acc ∧ ts.foldl step acc ≤ acc + totalInsulin ts := by
  intro ts
  induction ts with
  | nil => intro acc; simp [totalInsulin]
  | cons t rest ih =>
    intro acc
    rw [List.foldl_cons]
    have h1 := hstep acc t
    have h2 := ih (step acc t)
    have htot : totalInsulin (t :: rest) =
        (if t.hasInsulin then t.insulin else 0) + totalInsulin rest := by
      simp [totalInsulin]
    constructor
    · linarith [h1.1, h2.1]
    · rw [htot]; linarith [h1.2, h2.2]

/-- `math.Round` at a nonnegative argument: nonnegative, and at most half a
unit above the argument. -/
theorem goRound_nonneg_bounds {x : ℚ} (hx : 0 ≤ x) :
    0 ≤ goRound x ∧ goRound x ≤ x + 1/2 := by
  unfold goRound
  rw [if_pos hx]
  constructor
  · exact_mod_cast Int.le_floor.mpr (by push_cast; linarith)
  · exact le_trans (Int.floor_le _) (by linarith)

/-- The rounded-to-two-decimals decayed sum is nonnegative and exceeds the
insulin total by at most half a cent. -/
theorem roundedFold_bounds (step : ℚ → models.Treatment → ℚ)
    (hstep : ∀ acc t, acc ≤ step acc t ∧
      step acc t ≤ acc + (if t.hasInsulin then t.insulin else 0))
    (ts : List models.Treatment) :
    0 ≤ goRound (ts.foldl step 0 * 100) / 100 ∧
      goRound (ts.foldl step 0 * 100) / 100 ≤ totalInsulin ts + 1/200 := by
  have hfold := foldl_step_bounds step hstep ts 0
  have hr := goRound_nonneg_bounds (mul_nonneg hfold.1 (by norm_num : (0:ℚ) ≤ 100))
  exact ⟨div_nonneg hr.1 (by norm_num), by linarith [hr.2, hfold.2]⟩


/-- C10 (amended): insulinActivityRemaining is, in both the physiological
predictor and the ensemble engine, exactly 1 at or before the dose time,
exactly 0 at or beyond the DIA window, and always a fraction in [0, 1];
consequently both calculateIOB variants return a non-negative value that is
at most the total insulin units of the treatments plus 0.005 — the final
rounding to two decimals can exceed the raw decayed sum, itself bounded by
the insulin total, by up to half of 0.01. -/
theorem C10_iob_bounds (env : Env) (p : Phys.Predictor) (e : Oref.OrefEngine)
    (treatments : List models.Treatment) (now : ℤ) (m : ℚ) :
    (m ≤ 0 → Phys.insulinActivityRemaining p m = 1) ∧
    (0 < m → p.params.dia * 60 ≤ m → Phys.insulinActivityRemaining p m = 0) ∧
    (0 ≤ Phys.insulinActivityRemaining p m ∧
      Phys.insulinActivityRemaining p m ≤ 1) ∧
    (m ≤ 0 → Oref.insulinActivityRemaining env e m = 1) ∧
    (0 < m → e.config.diaMinutes ≤ m → Oref.insulinActivityRemaining env e m = 0) ∧
    (0 ≤ Oref.insulinActivityRemaining env e m ∧
      Oref.insulinActivityRemaining env e m ≤ 1) ∧
    (0 ≤ Phys.calculateIOB p treatments now ∧
      Phys.calculateIOB p treatments now ≤ totalInsulin treatments + 1/200) ∧
    (0 ≤ Oref.calculateIOB env e treatments now ∧
      Oref.calculateIOB env e treatments now ≤ totalInsulin treatments + 1/200) := by
  refine ⟨phys_activity_one p m, phys_activity_zero p m,
    phys_activity_bounds p m, oref_activity_one env e m,
    oref_activity_zero env e m, oref_activity_bounds env e m, ?_, ?_⟩
  · unfold Phys.calculateIOB
    refine roundedFold_bounds _ ?_ treatments
    intro acc t
    dsimp only
    by_cases hg : t.hasInsulin ∧ t.isBolus
    · simp only [if_pos hg]
      by_cases ht : t.time ≤ now
      · simp only [if_pos ht]
        by_cases hm : minutesFrom t.time now ≤ p.params.dia * 60
        · simp only [if_pos hm, if_pos hg.1]
          have ha := phys_activity_bounds p (minutesFrom t.time now)
          have hi : 0 < t.insulin := hg.1
          have h0 : 0 ≤ t.insulin *
              Phys.insulinActivityRemaining p (minutesFrom t.time now) :=
            mul_nonneg (le_of_lt hi) ha.1
          have hle : t.insulin *
              Phys.insulinActivityRemaining p (minutesFrom t.time now) ≤
              t.insulin :=
            mul_le_of_le_one_right (le_of_lt hi) ha.2
          constructor <;> linarith
        · simp only [if_neg hm]
          refine ⟨le_refl acc, ?_⟩
          split_ifs with hin
          · have : 0 < t.insulin := hin
            linarith
          · linarith
      · simp only [if_neg ht]
        refine ⟨le_refl acc, ?_⟩
        split_ifs with hin
        · have : 0 < t.insulin := hin
          linarith
        · linarith
    · simp only [if_neg hg]
      refine ⟨le_refl acc, ?_⟩
      split_ifs with hin
      · have : 0 < t.insulin := hin
        linarith
      · linarith
  · unfold Oref.calculateIOB
    refine roundedFold_bounds _ ?_ treatments
    intro acc t
    dsimp only
    by_cases hg : t.hasInsulin
    · simp only [if_pos hg]
      by_cases hm : minutesFrom t.time now < 0 ∨
          e.config.diaMinutes < minutesFrom t.time now
      · simp only [if_pos hm]
        refine ⟨le_refl acc, ?_⟩
        have : 0 < t.insulin := hg
        linarith
      · simp only [if_neg hm, if_pos hg]
        have ha := oref_activity_bounds env e (minutesFrom t.time now)
        have hi : 0 < t.insulin := hg
        have h0 : 0 ≤ t.insulin *
            Oref.insulinActivityRemaining env e (minutesFrom t.time now) :=
          mul_nonneg (le_of_lt hi) ha.1
        have hle : t.insulin *
            Oref.insulinActivityRemaining env e (minutesFrom t.time now) ≤
            t.insulin :=
          mul_le_of_le_one_right (le_of_lt hi) ha.2
        refine ⟨?_, ?_⟩
        · show acc ≤ acc + t.insulin *
            Oref.insulinActivityRemaining env e (minutesFrom t.time now)
          linarith
        · show acc + t.insulin *
            Oref.insulinActivityRemaining env e (minutesFrom t.time now) ≤
            acc + t.insulin
          linarith
    · simp only [if_neg hg]
      constructor <;> simp

/-- Witness for C10: activity 1 before the dose, and IOB bounds on an empty
treatment list. -/
theorem C10_iob_bounds_witness :
    Phys.insulinActivityRemaining ⟨models.newDiabetesParameters⟩ (-5) = 1 ∧
    0 ≤ Phys.calculateIOB ⟨models.newDiabetesParameters⟩ [] 0 :=
  ⟨(C10_iob_bounds env0 ⟨models.newDiabetesParameters⟩ (Oref.newOrefEngine none)
      [] 0 (-5)).1 (by norm_num),
   ((C10_iob_bounds env0 ⟨models.newDiabetesParameters⟩ (Oref.newOrefEngine none)
      [] 0 (-5)).2.2.2.2.2.2.1).1⟩

/-- A 0.006-unit bolus taken at the query time. -/
def tinyBolus : models.Treatment :=
  { id := 0, eventType := "Bolus", date := 0, insulin := 3/500, carbs := 0 }

/-- C10 (counterexample): calculateIOB is not bounded by the total insulin
units of the treatments: for a single 0.006-unit bolus at the query time,
both engines report an IOB of 0.01 — the raw decayed sum 0.006 rounded to
two decimals — which exceeds the 0.006-unit total. -/
theorem C10_iob_rounding_counterexample :
    Phys.calculateIOB ⟨models.newDiabetesParameters⟩ [tinyBolus] 0 = 1/100 ∧
    Oref.calculateIOB env0 (Oref.newOrefEngine none) [tinyBolus] 0 = 1/100 ∧
    totalInsulin [tinyBolus] = 3/500 ∧
    ¬ (1/100 : ℚ) ≤ 3/500 := by
  refine ⟨?_, ?_, ?_, by norm_num⟩
  · norm_num [Phys.calculateIOB, tinyBolus, models.Treatment.hasInsulin,
      models.Treatment.isBolus, models.Treatment.time, minutesFrom,
      Phys.insulinActivityRemaining, models.newDiabetesParameters, goRound,
      List.foldl_cons, List.foldl_nil]
  · norm_num [Oref.calculateIOB, tinyBolus, models.Treatment.hasInsulin,
      models.Treatment.time, minutesFrom, Oref.insulinActivityRemaining,
      Oref.newOrefEngine, Oref.defaultOrefConfig, goRound,
      List.foldl_cons, List.foldl_nil]
  · norm_num [totalInsulin, tinyBolus, models.Treatment.hasInsulin]

/-- C4 (amended): the ensemble autosens step computes the sensitivity ratio
as the clamped-to-[0.7, 1.2] upper median of the per-interval OFFSET ratios
(actualDelta + 100) / (expectedDelta + 100) — not of the plain ratios
actualDelta / expectedDelta — over the 4-to-6-minute-spaced reading pairs of
the trailing 24-hour window with a significant (|expected| > 5) expected
effect, and only when at least ten such intervals exist (otherwise the
ratio is left unchanged); the stored ratio always lies within the
configured band [0.7, 1.2]. -/
theorem C4_autosens_amended (env : Env) (e : Oref.OrefEngine)
    (entries : List models.GlucoseEntry) (treatments : List models.Treatment)
    (now : ℤ) (hmin : e.config.autosensMin = 7/10)
    (hmax : e.config.autosensMax = 6/5)
    (hband : 7/10 ≤ e.sensitivityRatio ∧ e.sensitivityRatio ≤ 6/5) :
    (Oref.calculateAutosens env e entries treatments now).sensitivityRatio =
      (if 10 ≤ (Oref.autosensDeviations env e entries treatments now).length then
        max (7/10) (min (6/5)
          ((List.insertionSort (fun a b => a ≤ b)
            (Oref.autosensDeviations env e entries treatments now)).getD
            ((Oref.autosensDeviations env e entries treatments now).length / 2) 0))
      else e.sensitivityRatio) ∧
    7/10 ≤ (Oref.calculateAutosens env e entries treatments now).sensitivityRatio ∧
    (Oref.calculateAutosens env e entries treatments now).sensitivityRatio ≤ 6/5 := by
  have hloop := Oref.autosensDeviationsLoop_eq env e entries treatments now
  unfold Oref.calculateAutosens
  rw [hloop, hmin, hmax]
  by_cases h : 10 ≤ (Oref.autosensDeviations env e entries treatments now).length
  · simp only [if_pos h]
    exact ⟨trivial, le_max_left _ _, max_le (by norm_num) (min_le_left _ _)⟩
  · simp only [if_neg h]
    exact ⟨trivial, hband.1, hband.2⟩

/-- Witness for C4 on empty history with the default engine. -/
theorem C4_autosens_amended_witness :
    7/10 ≤ (Oref.calculateAutosens env0 (Oref.newOrefEngine none) [] [] 0).sensitivityRatio ∧
    (Oref.calculateAutosens env0 (Oref.newOrefEngine none) [] [] 0).sensitivityRatio ≤ 6/5 :=
  ⟨(C4_autosens_amended env0 (Oref.newOrefEngine none) [] [] 0 rfl rfl
      (by norm_num [Oref.newOrefEngine])).2.1,
   (C4_autosens_amended env0 (Oref.newOrefEngine none) [] [] 0 rfl rfl
      (by norm_num [Oref.newOrefEngine])).2.2⟩

/-- Eleven readings at exact 5-minute spacing climbing 20 mg/dL per step,
ending shortly before the query time. -/
def c4entries : List models.GlucoseEntry :=
  [⟨100, -3600000⟩, ⟨120, -3300000⟩, ⟨140, -3000000⟩, ⟨160, -2700000⟩,
   ⟨180, -2400000⟩, ⟨200, -2100000⟩, ⟨220, -1800000⟩, ⟨240, -1500000⟩,
   ⟨260, -1200000⟩, ⟨280, -900000⟩, ⟨300, -600000⟩]

/-- Two one-gram carb treatments at the start of each of the ten intervals
(the one-gram dose makes the absorbed amount exp-independent: the minimum
5-minute carb-impact floor already covers the whole gram). -/
def c4treatments : List models.Treatment :=
  [⟨0, "Meal Bolus", -3600000, 0, 1⟩, ⟨1, "Meal Bolus", -3600000, 0, 1⟩,
   ⟨2, "Meal Bolus", -3300000, 0, 1⟩, ⟨3, "Meal Bolus", -3300000, 0, 1⟩,
   ⟨4, "Meal Bolus", -3000000, 0, 1⟩, ⟨5, "Meal Bolus", -3000000, 0, 1⟩,
   ⟨6, "Meal Bolus", -2700000, 0, 1⟩, ⟨7, "Meal Bolus", -2700000, 0, 1⟩,
   ⟨8, "Meal Bolus", -2400000, 0, 1⟩, ⟨9, "Meal Bolus", -2400000, 0, 1⟩,
   ⟨10, "Meal Bolus", -2100000, 0, 1⟩, ⟨11, "Meal Bolus", -2100000, 0, 1⟩,
   ⟨12, "Meal Bolus", -1800000, 0, 1⟩, ⟨13, "Meal Bolus", -1800000, 0, 1⟩,
   ⟨14, "Meal Bolus", -1500000, 0, 1⟩, ⟨15, "Meal Bolus", -1500000, 0, 1⟩,
   ⟨16, "Meal Bolus", -1200000, 0, 1⟩, ⟨17, "Meal Bolus", -1200000, 0, 1⟩,
   ⟨18, "Meal Bolus", -900000, 0, 1⟩, ⟨19, "Meal Bolus", -900000, 0, 1⟩]

set_option maxHeartbeats 4000000 in
/-- C4 (counterexample): the stored sensitivity ratio is not the (clamped)
median of the per-interval ratios actual-delta / expected-delta.  On ten
qualifying intervals with actual delta 20 and expected delta 10 each, the
code stores (20+100)/(10+100) = 12/11 ≈ 1.09, while the claimed median of
actual/expected is 2, whose clamp to [0.7, 1.2] is 1.2 ≠ 12/11. -/
theorem C4_autosens_counterexample :
    (Oref.calculateAutosens env0 (Oref.newOrefEngine none) c4entries
        c4treatments 0).sensitivityRatio = 12/11 ∧
    median (Oref.claimedAutosensRatios env0 (Oref.newOrefEngine none)
        c4entries c4treatments 0) = 2 ∧
    (12/11 : ℚ) ≠ 2 ∧ (12/11 : ℚ) ≠ max (7/10) (min (6/5) 2) := by
  have hdev : Oref.autosensDeviationsLoop env0 (Oref.newOrefEngine none)
      c4entries c4treatments 0 = List.replicate 10 (12/11) := by
    norm_num [Oref.autosensDeviationsLoop, Oref.autosensPairRatio,
      Oref.appendIfSome, Oref.calculateExpectedDelta, Oref.carbsAbsorbed,
      Oref.insulinActivityRemaining, models.Treatment.hasInsulin,
      models.Treatment.hasCarbs, models.Treatment.time,
      models.GlucoseEntry.time, minutesFrom, env0, c4entries, c4treatments,
      Oref.newOrefEngine, Oref.defaultOrefConfig, models.newDiabetesParameters,
      List.zip, List.zipWith, List.foldl_cons, List.foldl_nil,
      List.replicate]
  have hclaimed : Oref.claimedAutosensRatios env0 (Oref.newOrefEngine none)
      c4entries c4treatments 0 = List.replicate 10 2 := by
    norm_num [Oref.claimedAutosensRatios, Oref.calculateExpectedDelta,
      Oref.carbsAbsorbed, Oref.insulinActivityRemaining,
      models.Treatment.hasInsulin, models.Treatment.hasCarbs,
      models.Treatment.time, models.GlucoseEntry.time, minutesFrom, env0,
      c4entries, c4treatments, Oref.newOrefEngine, Oref.defaultOrefConfig,
      models.newDiabetesParameters, List.zip, List.zipWith,
      List.filterMap_cons, List.replicate]
  refine ⟨?_, ?_, by norm_num, by norm_num⟩
  · unfold Oref.calculateAutosens
    rw [hdev]
    rw [if_pos (by norm_num [List.length_replicate])]
    have hsort : List.insertionSort (fun a b => a ≤ b)
        (List.replicate 10 ((12:ℚ)/11)) = List.replicate 10 (12/11) := by
      norm_num [List.insertionSort, List.orderedInsert, List.replicate]
    rw [List.length_replicate, hsort]
    norm_num [List.replicate, List.getD_cons_succ, List.getD_cons_zero,
      Oref.newOrefEngine, Oref.defaultOrefConfig]
  · rw [hclaimed]
    unfold median
    rw [if_neg (by simp [List.replicate])]
    have hsort : List.insertionSort (fun a b => a ≤ b)
        (List.replicate 10 (2:ℚ)) = List.replicate 10 2 := by
      norm_num [List.insertionSort, List.orderedInsert, List.replicate]
    rw [List.length_replicate, hsort]
    norm_num [List.replicate, List.getD_cons_succ, List.getD_cons_zero]

/-- `calculateDailyAverages` writes only the four daily-total fields: every
other field of the parameter record passes through the map-iteration step
unchanged, for every iteration order. -/
theorem calculateDailyAverages_frame (env : Env)
    (treatments : List models.Treatment) (p : models.DiabetesParameters)
    (o1 o2 o3 : List ℤ) :
    (Analyzer.calculateDailyAverages env treatments p o1 o2 o3).isf = p.isf ∧
    (Analyzer.calculateDailyAverages env treatments p o1 o2 o3).isfByTimeOfDay = p.isfByTimeOfDay ∧
    (Analyzer.calculateDailyAverages env treatments p o1 o2 o3).icr = p.icr ∧
    (Analyzer.calculateDailyAverages env treatments p o1 o2 o3).icrByTimeOfDay = p.icrByTimeOfDay ∧
    (Analyzer.calculateDailyAverages env treatments p o1 o2 o3).dia = p.dia ∧
    (Analyzer.calculateDailyAverages env treatments p o1 o2 o3).carbAbsorptionRate = p.carbAbsorptionRate ∧
    (Analyzer.calculateDailyAverages env treatments p o1 o2 o3).basalRateByTimeOfDay = p.basalRateByTimeOfDay ∧
    (Analyzer.calculateDailyAverages env treatments p o1 o2 o3).averageGlucose = p.averageGlucose ∧
    (Analyzer.calculateDailyAverages env treatments p o1 o2 o3).glucoseStdDev = p.glucoseStdDev ∧
    (Analyzer.calculateDailyAverages env treatments p o1 o2 o3).timeInRange = p.timeInRange ∧
    (Analyzer.calculateDailyAverages env treatments p o1 o2 o3).timeBelowRange = p.timeBelowRange ∧
    (Analyzer.calculateDailyAverages env treatments p o1 o2 o3).timeAboveRange = p.timeAboveRange ∧
    (Analyzer.calculateDailyAverages env treatments p o1 o2 o3).gmi = p.gmi ∧
    (Analyzer.calculateDailyAverages env treatments p o1 o2 o3).coefficientOfVariation = p.coefficientOfVariation ∧
    (Analyzer.calculateDailyAverages env treatments p o1 o2 o3).isfConfidence = p.isfConfidence ∧
    (Analyzer.calculateDailyAverages env treatments p o1 o2 o3).icrConfidence = p.icrConfidence ∧
    (Analyzer.calculateDailyAverages env treatments p o1 o2 o3).diaConfidence = p.diaConfidence ∧
    (Analyzer.calculateDailyAverages env treatments p o1 o2 o3).dataDays = p.dataDays ∧
    (Analyzer.calculateDailyAverages env treatments p o1 o2 o3).entriesAnalyzed = p.entriesAnalyzed ∧
    (Analyzer.calculateDailyAverages env treatments p o1 o2 o3).treatmentsAnalyzed = p.treatmentsAnalyzed ∧
    (Analyzer.calculateDailyAverages env treatments p o1 o2 o3).calculatedAt = p.calculatedAt := by
  unfold Analyzer.calculateDailyAverages
  dsimp only
  split_ifs <;> simp

/-- C6 (amended): the statistical recalculation is a deterministic function
of the frozen input, the map iteration orders and the clock.  Holding the
randomised map iteration orders fixed, two runs on frozen identical input
yield DiabetesParameters snapshots that agree bit-for-bit on every field
except the `CalculatedAt` wall-clock stamp; and the iteration orders enter
the computation only through `calculateDailyAverages`, which writes only
the four daily-total fields. -/
theorem C6_determinism_modulo_clock (env : Env)
    (entries : List models.GlucoseEntry) (treatments : List models.Treatment)
    (p : models.DiabetesParameters) (now1 now2 : ℤ) (o1 o2 o3 : List ℤ) :
    ((Analyzer.calculateDailyAverages env treatments p o1 o2 o3).isf = p.isf ∧
      (Analyzer.calculateDailyAverages env treatments p o1 o2 o3).isfConfidence = p.isfConfidence ∧
      (Analyzer.calculateDailyAverages env treatments p o1 o2 o3).icr = p.icr ∧
      (Analyzer.calculateDailyAverages env treatments p o1 o2 o3).icrConfidence = p.icrConfidence ∧
      (Analyzer.calculateDailyAverages env treatments p o1 o2 o3).dia = p.dia ∧
      (Analyzer.calculateDailyAverages env treatments p o1 o2 o3).diaConfidence = p.diaConfidence ∧
      (Analyzer.calculateDailyAverages env treatments p o1 o2 o3).carbAbsorptionRate = p.carbAbsorptionRate ∧
      (Analyzer.calculateDailyAverages env treatments p o1 o2 o3).averageGlucose = p.averageGlucose ∧
      (Analyzer.calculateDailyAverages env treatments p o1 o2 o3).glucoseStdDev = p.glucoseStdDev ∧
      (Analyzer.calculateDailyAverages env treatments p o1 o2 o3).timeInRange = p.timeInRange ∧
      (Analyzer.calculateDailyAverages env treatments p o1 o2 o3).timeBelowRange = p.timeBelowRange ∧
      (Analyzer.calculateDailyAverages env treatments p o1 o2 o3).timeAboveRange = p.timeAboveRange ∧
      (Analyzer.calculateDailyAverages env treatments p o1 o2 o3).gmi = p.gmi ∧
      (Analyzer.calculateDailyAverages env treatments p o1 o2 o3).coefficientOfVariation = p.coefficientOfVariation ∧
      (Analyzer.calculateDailyAverages env treatments p o1 o2 o3).calculatedAt = p.calculatedAt) ∧
    (Analyzer.analyzeData env entries treatments now1 o1 o2 o3).isf =
      (Analyzer.analyzeData env entries treatments now2 o1 o2 o3).isf ∧
    (Analyzer.analyzeData env entries treatments now1 o1 o2 o3).isfByTimeOfDay =
      (Analyzer.analyzeData env entries treatments now2 o1 o2 o3).isfByTimeOfDay ∧
    (Analyzer.analyzeData env entries treatments now1 o1 o2 o3).icr =
      (Analyzer.analyzeData env entries treatments now2 o1 o2 o3).icr ∧
    (Analyzer.analyzeData env entries treatments now1 o1 o2 o3).icrByTimeOfDay =
      (Analyzer.analyzeData env entries treatments now2 o1 o2 o3).icrByTimeOfDay ∧
    (Analyzer.analyzeData env entries treatments now1 o1 o2 o3).dia =
      (Analyzer.analyzeData env entries treatments now2 o1 o2 o3).dia ∧
    (Analyzer.analyzeData env entries treatments now1 o1 o2 o3).carbAbsorptionRate =
      (Analyzer.analyzeData env entries treatments now2 o1 o2 o3).carbAbsorptionRate ∧
    (Analyzer.analyzeData env entries treatments now1 o1 o2 o3).basalRateByTimeOfDay =
      (Analyzer.analyzeData env entries treatments now2 o1 o2 o3).basalRateByTimeOfDay ∧
    (Analyzer.analyzeData env entries treatments now1 o1 o2 o3).totalDailyInsulin =
      (Analyzer.analyzeData env entries treatments now2 o1 o2 o3).totalDailyInsulin ∧
    (Analyzer.analyzeData env entries treatments now1 o1 o2 o3).basalInsulin =
      (Analyzer.analyzeData env entries treatments now2 o1 o2 o3).basalInsulin ∧
    (Analyzer.analyzeData env entries treatments now1 o1 o2 o3).bolusInsulin =
      (Analyzer.analyzeData env entries treatments now2 o1 o2 o3).bolusInsulin ∧
    (Analyzer.analyzeData env entries treatments now1 o1 o2 o3).totalDailyCarbs =
      (Analyzer.analyzeData env entries treatments now2 o1 o2 o3).totalDailyCarbs ∧
    (Analyzer.analyzeData env entries treatments now1 o1 o2 o3).averageGlucose =
      (Analyzer.analyzeData env entries treatments now2 o1 o2 o3).averageGlucose ∧
    (Analyzer.analyzeData env entries treatments now1 o1 o2 o3).glucoseStdDev =
      (Analyzer.analyzeData env entries treatments now2 o1 o2 o3).glucoseStdDev ∧
    (Analyzer.analyzeData env entries treatments now1 o1 o2 o3).timeInRange =
      (Analyzer.analyzeData env entries treatments now2 o1 o2 o3).timeInRange ∧
    (Analyzer.analyzeData env entries treatments now1 o1 o2 o3).timeBelowRange =
      (Analyzer.analyzeData env entries treatments now2 o1 o2 o3).timeBelowRange ∧
    (Analyzer.analyzeData env entries treatments now1 o1 o2 o3).timeAboveRange =
      (Analyzer.analyzeData env entries treatments now2 o1 o2 o3).timeAboveRange ∧
    (Analyzer.analyzeData env entries treatments now1 o1 o2 o3).gmi =
      (Analyzer.analyzeData env entries treatments now2 o1 o2 o3).gmi ∧
    (Analyzer.analyzeData env entries treatments now1 o1 o2 o3).coefficientOfVariation =
      (Analyzer.analyzeData env entries treatments now2 o1 o2 o3).coefficientOfVariation ∧
    (Analyzer.analyzeData env entries treatments now1 o1 o2 o3).isfConfidence =
      (Analyzer.analyzeData env entries treatments now2 o1 o2 o3).isfConfidence ∧
    (Analyzer.analyzeData env entries treatments now1 o1 o2 o3).icrConfidence =
      (Analyzer.analyzeData env entries treatments now2 o1 o2 o3).icrConfidence ∧
    (Analyzer.analyzeData env entries treatments now1 o1 o2 o3).diaConfidence =
      (Analyzer.analyzeData env entries treatments now2 o1 o2 o3).diaConfidence ∧
    (Analyzer.analyzeData env entries treatments now1 o1 o2 o3).dataDays =
      (Analyzer.analyzeData env entries treatments now2 o1 o2 o3).dataDays ∧
    (Analyzer.analyzeData env entries treatments now1 o1 o2 o3).entriesAnalyzed =
      (Analyzer.analyzeData env entries treatments now2 o1 o2 o3).entriesAnalyzed ∧
    (Analyzer.analyzeData env entries treatments now1 o1 o2 o3).treatmentsAnalyzed =
      (Analyzer.analyzeData env entries treatments now2 o1 o2 o3).treatmentsAnalyzed ∧
    (Analyzer.analyzeData env entries treatments now1 o1 o2 o3).calculatedAt = now1 ∧
    (Analyzer.analyzeData env entries treatments now2 o1 o2 o3).calculatedAt = now2 := by
  have hframe := calculateDailyAverages_frame env treatments p o1 o2 o3
  refine ⟨⟨hframe.1, hframe.2.2.2.2.2.2.2.2.2.2.2.2.2.2.1, hframe.2.2.1,
    hframe.2.2.2.2.2.2.2.2.2.2.2.2.2.2.2.1, hframe.2.2.2.2.1,
    hframe.2.2.2.2.2.2.2.2.2.2.2.2.2.2.2.2.1, hframe.2.2.2.2.2.1,
    hframe.2.2.2.2.2.2.2.1, hframe.2.2.2.2.2.2.2.2.1,
    hframe.2.2.2.2.2.2.2.2.2.1, hframe.2.2.2.2.2.2.2.2.2.2.1,
    hframe.2.2.2.2.2.2.2.2.2.2.2.1, hframe.2.2.2.2.2.2.2.2.2.2.2.2.1,
    hframe.2.2.2.2.2.2.2.2.2.2.2.2.2.1,
    hframe.2.2.2.2.2.2.2.2.2.2.2.2.2.2.2.2.2.2.2.2⟩, ?_⟩
  simp [Analyzer.analyzeData]

/-- A single reading used by the C6 witnesses. -/
def c6entry : models.GlucoseEntry := ⟨100, 0⟩

/-- C6 (counterexample): two statistical runs on frozen identical input are
not bit-identical in every field — the `CalculatedAt` wall-clock stamp
differs between runs. -/
theorem C6_determinism_counterexample :
    (Analyzer.analyzeData env0 [c6entry] [] 1000 [] [] []).calculatedAt = 1000 ∧
    (Analyzer.analyzeData env0 [c6entry] [] 2000 [] [] []).calculatedAt = 2000 ∧
    (1000 : ℤ) ≠ 2000 :=
  ⟨rfl, rfl, by decide⟩

end NightscoutTray
